import Mathlib

/-!
Shallow embedding of the resource-allocation core of the ISP back-office
repository: the connection lifecycle controller (`crearConexion`,
`actualizarConexion`, `finalizarConexion` in the connection controller),
the client deletion path (`eliminarCliente` in `clienteController.js`),
the direct port update endpoint (`actualizarPuerto` in
`puertoController.js`), the capacity scan (`obtenerAlertas` in the
dashboard controller) and the generic audit hook
(`configurarAuditoriaParaModelo` in `utils/auditoria.js`).

Conventions of the embedding:
* Database rows are structures, tables are lists, the whole relational
  store is the `Store` structure.  Primary keys (UUIDs in the source)
  are modelled as `Nat`; freshness of a generated key is an explicit
  hypothesis where it matters.
* Dates are modelled as `Nat` timestamps; operations that call
  `new Date()` receive the current time `ahora` as a parameter.
* Every controller action returns a pair `(Respuesta, Store)`: the HTTP
  response outcome together with the database state after the call.
  Branches of the source that catch a thrown error and answer 500
  return `Respuesta.error .interno` together with whatever rows had
  already been written (the source uses no transaction in those paths).
* Request bodies are structures of `Option` fields: `none` models an
  absent (`undefined`) body field.  Sequelize's `update` ignores
  `undefined` values, and the source guards optional fields with
  JavaScript truthiness (`plan_id || conexion.plan_id`), both of which
  are modelled by the `Option`.
* The express-validator branch (`validationResult`) at the top of the
  handlers belongs to the excluded validation middleware and is not
  modelled: inputs are assumed well formed.
-/

namespace ISPCore

/-- Port states: the `estado` ENUM of the `puertos` table. -/
inductive EstadoPuerto where
  | LIBRE
  | OCUPADO
  | MANTENIMIENTO
deriving DecidableEq, Repr

/-- Connection states: the `estado` ENUM of the `conexiones` table. -/
inductive EstadoConexion where
  | ACTIVA
  | SUSPENDIDA
  | FINALIZADA
deriving DecidableEq, Repr

/-- NAP states: the `estado` ENUM of the `naps` table. -/
inductive EstadoNAP where
  | ACTIVO
  | MANTENIMIENTO
  | SATURADO
deriving DecidableEq, Repr

/-- A row of the `puertos` table (fields used by the core). -/
structure Puerto where
  id : Nat
  nap_id : Nat
  estado : EstadoPuerto
  nota : Option String
deriving DecidableEq, Repr

/-- A row of the `conexiones` table (fields used by the core). -/
structure Conexion where
  id : Nat
  puerto_id : Nat
  cliente_id : Nat
  plan_id : Nat
  fecha_inicio : Nat
  fecha_fin : Option Nat
  estado : EstadoConexion
  creado_por : Nat
deriving DecidableEq, Repr

/-- A row of the `naps` table (fields used by the core). -/
structure NAP where
  id : Nat
  estado : EstadoNAP
  total_puertos : Nat
deriving DecidableEq, Repr

/-- A row of the `clientes` table (only the key matters to the core). -/
structure Cliente where
  id : Nat
deriving DecidableEq, Repr

/-- A row of the `planes` table (only the key matters to the core). -/
structure PlanServicio where
  id : Nat
deriving DecidableEq, Repr

/-- The relational store: one list per table touched by the core. -/
structure Store where
  naps : List NAP
  puertos : List Puerto
  clientes : List Cliente
  planes : List PlanServicio
  conexiones : List Conexion
deriving DecidableEq, Repr

/-- Error outcomes of the modelled endpoints (one constructor per
distinct error response of the source handlers). -/
inductive ErrorAPI where
  | puertoNoEncontrado
  | puertoNoDisponible
  | clienteNoEncontrado
  | planNoEncontrado
  | conexionYaActiva
  | conexionNoEncontrada
  | yaFinalizada
  | puertoConConexionActiva
  | puertoSinConexionActiva
  | interno
deriving DecidableEq, Repr

/-- Outcome of a handler: a success payload or an error response. -/
inductive Respuesta (α : Type) where
  | ok : α → Respuesta α
  | error : ErrorAPI → Respuesta α
deriving DecidableEq, Repr

/-- The response is a success. -/
def Respuesta.esOk {α : Type} : Respuesta α → Prop
  | .ok _ => True
  | .error _ => False

instance {α : Type} (r : Respuesta α) : Decidable r.esOk := by
  cases r <;> simp [Respuesta.esOk] <;> infer_instance

/-- Model of `Puerto.findByPk` on the store. -/
def findPuerto (s : Store) (pid : Nat) : Option Puerto :=
  s.puertos.find? fun p => decide (p.id = pid)

/-- Model of `Cliente.findByPk` on the store. -/
def findCliente (s : Store) (cid : Nat) : Option Cliente :=
  s.clientes.find? fun c => decide (c.id = cid)

/-- Model of `Plan.findByPk` on the store. -/
def findPlan (s : Store) (pid : Nat) : Option PlanServicio :=
  s.planes.find? fun p => decide (p.id = pid)

/-- Model of `NAP.findByPk` on the store. -/
def findNAP (s : Store) (nid : Nat) : Option NAP :=
  s.naps.find? fun n => decide (n.id = nid)

/-- Model of `Conexion.findByPk` on the store. -/
def findConexion (s : Store) (cid : Nat) : Option Conexion :=
  s.conexiones.find? fun c => decide (c.id = cid)

/-- Model of `puerto.update({ estado })`: rewrite the state of the row with the
given primary key (a no-op when no row has that key). -/
def setPuertoEstado (s : Store) (pid : Nat) (e : EstadoPuerto) : Store :=
  { s with puertos := s.puertos.map fun p => if p.id = pid then { p with estado := e } else p }

/-- Model of `nap.update({ estado })`: rewrite the state of the NAP row with the
given primary key. -/
def setNAPEstado (s : Store) (nid : Nat) (e : EstadoNAP) : Store :=
  { s with naps := s.naps.map fun n => if n.id = nid then { n with estado := e } else n }

/-- Model of `conexion.update(...)`: replace the connection row that has the same
primary key as `c` by `c`. -/
def reemplazarConexion (s : Store) (c : Conexion) : Store :=
  { s with conexiones := s.conexiones.map fun x => if x.id = c.id then c else x }

/-- Model of `puerto.update(...)` on the direct port endpoint: replace the port
row that has the same primary key as `p` by `p`. -/
def reemplazarPuerto (s : Store) (p : Puerto) : Store :=
  { s with puertos := s.puertos.map fun x => if x.id = p.id then p else x }

/-- Model of `nap.puertos.filter(p => p.estado === 'OCUPADO').length`: number of
occupied ports of a NAP. -/
def contarOcupadosNAP (s : Store) (nid : Nat) : Nat :=
  (s.puertos.filter fun p => decide (p.nap_id = nid ∧ p.estado = .OCUPADO)).length

/-- JavaScript comparison `occ / total * 100 >= bound` on the occupancy
percentage.  With `total = 0` the source divides by zero: `occ / 0` is
`Infinity` for `occ > 0` (so any `>=` bound holds) and `NaN` for
`occ = 0` (so no comparison holds). -/
def pctGe (occ total bound : Nat) : Prop :=
  (total = 0 ∧ 0 < occ) ∨ (0 < total ∧ bound * total ≤ 100 * occ)

/-- JavaScript comparison `occ / total * 100 < bound`.  With `total = 0`
the division yields `Infinity` or `NaN`, and either way `< bound` is
false. -/
def pctLt (occ total bound : Nat) : Prop :=
  0 < total ∧ 100 * occ < bound * total

instance (occ total bound : Nat) : Decidable (pctGe occ total bound) := by
  unfold pctGe; infer_instance

instance (occ total bound : Nat) : Decidable (pctLt occ total bound) := by
  unfold pctLt; infer_instance

/-- Request body of `POST /api/conexiones` (`crearConexion`). -/
structure CrearReq where
  puerto_id : Nat
  cliente_id : Nat
  plan_id : Nat
  fecha_inicio : Nat
  fecha_fin : Option Nat
  creado_por : Nat
deriving DecidableEq, Repr

/-- The row passed to `Conexion.create` by `crearConexion`: state is
always `'ACTIVA'`, the creator is the authenticated user. -/
def nuevaConexion (r : CrearReq) (nuevoId : Nat) : Conexion :=
  { id := nuevoId
    puerto_id := r.puerto_id
    cliente_id := r.cliente_id
    plan_id := r.plan_id
    fecha_inicio := r.fecha_inicio
    fecha_fin := r.fecha_fin
    estado := .ACTIVA
    creado_por := r.creado_por }

/-- Model of `crearConexion` (connection controller): check the port exists and
is `LIBRE`, check the client and the plan exist, check no `ACTIVA`
connection already references the port, then create the connection and
set the port to `OCUPADO`.  `nuevoId` is the primary key generated for
the new row. -/
def crearConexion (s : Store) (r : CrearReq) (nuevoId : Nat) : Respuesta Conexion × Store :=
  match findPuerto s r.puerto_id with
  | none => (.error .puertoNoEncontrado, s)
  | some puerto =>
    if puerto.estado ≠ .LIBRE then (.error .puertoNoDisponible, s)
    else match findCliente s r.cliente_id with
    | none => (.error .clienteNoEncontrado, s)
    | some _ =>
      match findPlan s r.plan_id with
      | none => (.error .planNoEncontrado, s)
      | some _ =>
        if ∃ c ∈ s.conexiones, c.puerto_id = r.puerto_id ∧ c.estado = .ACTIVA then
          (.error .conexionYaActiva, s)
        else
          let conexion := nuevaConexion r nuevoId
          let s₁ := { s with conexiones := s.conexiones ++ [conexion] }
          (.ok conexion, setPuertoEstado s₁ r.puerto_id .OCUPADO)

/-- Fault model for `crearConexion`: the source wraps the handler in a
single `try`/`catch` with no transaction, so when a write throws, the
rows already written stay in place and the handler answers 500.
`fallaCrear` makes the `Conexion.create` call fail, `fallaPuerto` makes
the subsequent `puerto.update` call fail.  With both flags `false` this
is exactly `crearConexion`. -/
def crearConexionConFallo (s : Store) (r : CrearReq) (nuevoId : Nat)
    (fallaCrear fallaPuerto : Bool) : Respuesta Conexion × Store :=
  match findPuerto s r.puerto_id with
  | none => (.error .puertoNoEncontrado, s)
  | some puerto =>
    if puerto.estado ≠ .LIBRE then (.error .puertoNoDisponible, s)
    else match findCliente s r.cliente_id with
    | none => (.error .clienteNoEncontrado, s)
    | some _ =>
      match findPlan s r.plan_id with
      | none => (.error .planNoEncontrado, s)
      | some _ =>
        if ∃ c ∈ s.conexiones, c.puerto_id = r.puerto_id ∧ c.estado = .ACTIVA then
          (.error .conexionYaActiva, s)
        else if fallaCrear then (.error .interno, s)
        else
          let conexion := nuevaConexion r nuevoId
          let s₁ := { s with conexiones := s.conexiones ++ [conexion] }
          if fallaPuerto then (.error .interno, s₁)
          else (.ok conexion, setPuertoEstado s₁ r.puerto_id .OCUPADO)

/-- Request body of `PUT /api/conexiones/:id` (`actualizarConexion`).
`none` models an absent field: the source keeps the old `plan_id` via
`plan_id || conexion.plan_id`, skips the plan lookup for a falsy
`plan_id`, passes `fecha_fin` through to `update` (where an `undefined`
value is ignored by Sequelize), and guards the port logic with
`estado && ...`. -/
structure ActualizarReq where
  plan_id : Option Nat
  fecha_fin : Option Nat
  estado : Option EstadoConexion
deriving DecidableEq, Repr

/-- The row passed to `conexion.update` by `actualizarConexion`: the
old value is kept for every absent request field (`plan_id ||
conexion.plan_id`; Sequelize ignores an `undefined` `fecha_fin`;
`estado || conexion.estado`). -/
def conexionActualizada (conexion : Conexion) (r : ActualizarReq) : Conexion :=
  { conexion with
    plan_id := r.plan_id.getD conexion.plan_id
    fecha_fin := match r.fecha_fin with
      | some v => some v
      | none => conexion.fecha_fin
    estado := r.estado.getD conexion.estado }

/-- Continuation of `actualizarConexion` after the connection was found
and the optional plan check passed: write the updated row, then update
the attached port only when the requested state differs from the
previous one (`FINALIZADA` frees the port, `ACTIVA`/`SUSPENDIDA` set it
to `OCUPADO`).  When the connection has no port row the port update
throws after the connection row was already written, which the `catch`
turns into a 500 response. -/
def aplicarActualizacion (s : Store) (conexion : Conexion) (r : ActualizarReq) :
    Respuesta Unit × Store :=
  let estadoAnterior := conexion.estado
  let conexionNueva : Conexion := conexionActualizada conexion r
  let s₁ := reemplazarConexion s conexionNueva
  match r.estado with
  | none => (.ok (), s₁)
  | some e =>
    if e = estadoAnterior then (.ok (), s₁)
    else if e = .FINALIZADA then
      match findPuerto s₁ conexion.puerto_id with
      | none => (.error .interno, s₁)
      | some _ => (.ok (), setPuertoEstado s₁ conexion.puerto_id .LIBRE)
    else
      match findPuerto s₁ conexion.puerto_id with
      | none => (.error .interno, s₁)
      | some _ => (.ok (), setPuertoEstado s₁ conexion.puerto_id .OCUPADO)

/-- Model of `actualizarConexion` (connection controller): find the connection,
check the new plan exists when one is supplied, then apply the update.
There is no guard on the current state: a `FINALIZADA` connection is
updated like any other. -/
def actualizarConexion (s : Store) (cid : Nat) (r : ActualizarReq) :
    Respuesta Unit × Store :=
  match findConexion s cid with
  | none => (.error .conexionNoEncontrada, s)
  | some conexion =>
    match r.plan_id with
    | some pid =>
      match findPlan s pid with
      | none => (.error .planNoEncontrado, s)
      | some _ => aplicarActualizacion s conexion r
    | none => aplicarActualizacion s conexion r

/-- Model of `finalizarConexion` (connection controller): reject when the
connection is already `FINALIZADA`; otherwise stamp `fecha_fin` with the
current time, set the state to `FINALIZADA`, free the port, and if the
port's NAP is `SATURADO` recompute its occupancy and set it back to
`ACTIVO` when the percentage dropped below 100. -/
def finalizarConexion (s : Store) (cid : Nat) (ahora : Nat) : Respuesta Unit × Store :=
  match findConexion s cid with
  | none => (.error .conexionNoEncontrada, s)
  | some conexion =>
    if conexion.estado = .FINALIZADA then (.error .yaFinalizada, s)
    else
      let s₁ := reemplazarConexion s { conexion with estado := .FINALIZADA, fecha_fin := some ahora }
      match findPuerto s₁ conexion.puerto_id with
      | none => (.error .interno, s₁)
      | some puerto =>
        let s₂ := setPuertoEstado s₁ conexion.puerto_id .LIBRE
        match findNAP s₂ puerto.nap_id with
        | none => (.ok (), s₂)
        | some nap =>
          if nap.estado = .SATURADO then
            if pctLt (contarOcupadosNAP s₂ nap.id) nap.total_puertos 100 then
              (.ok (), setNAPEstado s₂ nap.id .ACTIVO)
            else (.ok (), s₂)
          else (.ok (), s₂)

/-- One iteration of the loop in `eliminarCliente`: finalize the
connection (state `FINALIZADA`, `fecha_fin` stamped) and, when the
eagerly-loaded `conexion.puerto` instance exists (looked up in the store
`s` as loaded at the start of the handler), free that port. -/
def finalizarDeCliente (s : Store) (ahora : Nat) (acc : Store) (conexion : Conexion) : Store :=
  let acc₁ := reemplazarConexion acc { conexion with estado := .FINALIZADA, fecha_fin := some ahora }
  match findPuerto s conexion.puerto_id with
  | some _ => setPuertoEstado acc₁ conexion.puerto_id .LIBRE
  | none => acc₁

/-- Model of `eliminarCliente` (`clienteController.js`): inside one transaction,
finalize every `ACTIVA` connection of the client (freeing its port),
then delete the client row.  The reported `conexiones_finalizadas`
count re-filters the same in-memory connection instances for state
`'ACTIVA'` after they were updated, so it counts the client's
connections still `ACTIVA` at the end of the loop. -/
def eliminarCliente (s : Store) (cid : Nat) (ahora : Nat) : Respuesta Nat × Store :=
  match findCliente s cid with
  | none => (.error .clienteNoEncontrado, s)
  | some _ =>
    let conexionesCliente := s.conexiones.filter fun c => decide (c.cliente_id = cid)
    let conexionesActivas := conexionesCliente.filter fun c => decide (c.estado = .ACTIVA)
    let s₁ := conexionesActivas.foldl (finalizarDeCliente s ahora) s
    let s₂ := { s₁ with clientes := s₁.clientes.filter fun cl => decide (¬ cl.id = cid) }
    let reportadas :=
      (s₂.conexiones.filter fun c => decide (c.cliente_id = cid ∧ c.estado = .ACTIVA)).length
    (.ok reportadas, s₂)

/-- Request body of `PUT /api/puertos/:id` (`actualizarPuerto`).  The
outer `Option` of `nota` models field presence (`nota !== undefined`). -/
structure PuertoReq where
  estado : Option EstadoPuerto
  nota : Option (Option String)
deriving DecidableEq, Repr

/-- Model of `actualizarPuerto` (`puertoController.js`): load the port together
with its `ACTIVA` connection (hasOne include filtered on state
`'ACTIVA'`); reject a change to `LIBRE` while that connection exists and
a change to `OCUPADO` while it does not; otherwise write the requested
state and note. -/
def actualizarPuerto (s : Store) (pid : Nat) (r : PuertoReq) : Respuesta Unit × Store :=
  match findPuerto s pid with
  | none => (.error .puertoNoEncontrado, s)
  | some puerto =>
    if r.estado = some .LIBRE ∧ (∃ c ∈ s.conexiones, c.puerto_id = pid ∧ c.estado = .ACTIVA) then
      (.error .puertoConConexionActiva, s)
    else if r.estado = some .OCUPADO ∧ ¬ (∃ c ∈ s.conexiones, c.puerto_id = pid ∧ c.estado = .ACTIVA) then
      (.error .puertoSinConexionActiva, s)
    else
      (.ok (), reemplazarPuerto s
        { puerto with estado := r.estado.getD puerto.estado, nota := r.nota.getD puerto.nota })

/-- Kinds of NAP alert produced by `obtenerAlertas`. -/
inductive TipoAlerta where
  | NAP_SATURADO
  | NAP_MANTENIMIENTO
  | NAP_PROXIMO_SATURACION
deriving DecidableEq, Repr

/-- A NAP alert of `obtenerAlertas` (kind and NAP key; the message text
carries no further state). -/
structure Alerta where
  tipo : TipoAlerta
  nap_id : Nat
deriving DecidableEq, Repr

/-- Model of `obtenerAlertas` (dashboard controller), restricted to its NAP
content: one `NAP_SATURADO` alert per NAP in state `SATURADO`, one
`NAP_MANTENIMIENTO` alert per NAP in state `MANTENIMIENTO`, and, for
NAPs in state `ACTIVO` only, a `NAP_PROXIMO_SATURACION` alert when the
occupancy percentage lies in `[80, 100)` together with an update to
state `SATURADO` when the percentage reaches 100.  The occupancy of
each NAP is computed from the ports as loaded at the start of the scan.
The maintenance-record (`MANTENIMIENTO_CORRECTIVO`) alerts and the
final priority sort touch neither NAP state nor the NAP alert set and
are omitted. -/
def obtenerAlertas (s : Store) : List Alerta × Store :=
  let alertasSaturados : List Alerta :=
    (s.naps.filter fun n => decide (n.estado = .SATURADO)).map fun n =>
      { tipo := .NAP_SATURADO, nap_id := n.id }
  let alertasMantenimiento : List Alerta :=
    (s.naps.filter fun n => decide (n.estado = .MANTENIMIENTO)).map fun n =>
      { tipo := .NAP_MANTENIMIENTO, nap_id := n.id }
  let alertasProximos : List Alerta :=
    ((s.naps.filter fun n => decide (n.estado = .ACTIVO)).filter fun n =>
        decide (pctGe (contarOcupadosNAP s n.id) n.total_puertos 80 ∧
          pctLt (contarOcupadosNAP s n.id) n.total_puertos 100)).map fun n =>
      { tipo := .NAP_PROXIMO_SATURACION, nap_id := n.id }
  let napsTras := s.naps.map fun n =>
    if n.estado = .ACTIVO ∧ pctGe (contarOcupadosNAP s n.id) n.total_puertos 100 then
      { n with estado := .SATURADO }
    else n
  (alertasSaturados ++ alertasMantenimiento ++ alertasProximos, { s with naps := napsTras })

/-- Audit action kinds. -/
inductive Accion where
  | CREATE
  | UPDATE
  | DELETE
deriving DecidableEq, Repr

/-- One column of a Sequelize instance inside the `afterUpdate` hook:
its name, its previous data value and its current data value.  Values
are normalized to `Int`. -/
structure CampoInstancia where
  nombre : String
  valorPrevio : Int
  valorActual : Int
deriving DecidableEq, Repr

/-- The `instancia._changed` set read by the hook: the columns whose
current value differs from the previous one. -/
def camposCambiados (inst : List CampoInstancia) : List CampoInstancia :=
  inst.filter fun f => decide (¬ f.valorPrevio = f.valorActual)

/-- A row of the `auditorias` table. -/
structure RegistroAuditoria where
  tabla : String
  registro_id : Nat
  accion : Accion
  datos_anteriores : Option (List (String × Int))
  datos_nuevos : Option (List (String × Int))
  cambiado_por : Nat
deriving DecidableEq, Repr

/-- Model of `registrarAuditoria` (`utils/auditoria.js`): return immediately
without writing when no user is given, otherwise build the audit row. -/
def registrarAuditoria (tabla : String) (rid : Nat) (accion : Accion)
    (datosAnteriores datosNuevos : Option (List (String × Int)))
    (cambiadoPor : Option Nat) : Option RegistroAuditoria :=
  match cambiadoPor with
  | none => none
  | some uid =>
    some { tabla := tabla
           registro_id := rid
           accion := accion
           datos_anteriores := datosAnteriores
           datos_nuevos := datosNuevos
           cambiado_por := uid }

/-- The `afterUpdate` hook installed by `configurarAuditoriaParaModelo`:
with a user id present, collect the changed columns into the
`cambios`/`datosAnteriores` maps and write an UPDATE audit row only
when at least one column changed. -/
def hookAfterUpdate (tabla : String) (rid : Nat) (inst : List CampoInstancia)
    (userId : Option Nat) : Option RegistroAuditoria :=
  match userId with
  | none => none
  | some uid =>
    let cambiados := camposCambiados inst
    let cambios := cambiados.map fun f => (f.nombre, f.valorActual)
    let datosAnteriores := cambiados.map fun f => (f.nombre, f.valorPrevio)
    if 0 < cambios.length then
      registrarAuditoria tabla rid .UPDATE (some datosAnteriores) (some cambios) (some uid)
    else none

/-- A connection is live: state `ACTIVA` or `SUSPENDIDA`. -/
def conexionViva (c : Conexion) : Prop :=
  c.estado = .ACTIVA ∨ c.estado = .SUSPENDIDA

instance : DecidablePred conexionViva := fun c => by
  unfold conexionViva; infer_instance

/-- Some live connection references the port with key `pid`. -/
def hayVivaEn (s : Store) (pid : Nat) : Prop :=
  ∃ c ∈ s.conexiones, c.puerto_id = pid ∧ conexionViva c

instance (s : Store) (pid : Nat) : Decidable (hayVivaEn s pid) := by
  unfold hayVivaEn; infer_instance

/-- The central port-occupancy invariant: a port is `OCUPADO` exactly
when a live connection references it. -/
def invariantePuertos (s : Store) : Prop :=
  ∀ p ∈ s.puertos, (p.estado = .OCUPADO ↔ hayVivaEn s p.id)

instance (s : Store) : Decidable (invariantePuertos s) := by
  unfold invariantePuertos; infer_instance

/-- No port carries two live connections: any two live rows of the
connection table reference different ports. -/
def vivasSeparadas (s : Store) : Prop :=
  s.conexiones.Pairwise fun c₁ c₂ =>
    conexionViva c₁ → conexionViva c₂ → ¬ c₁.puerto_id = c₂.puerto_id

instance (s : Store) : Decidable (vivasSeparadas s) := by
  unfold vivasSeparadas; infer_instance

/-- Primary keys of the connection table are pairwise distinct. -/
def conexionesIdUnicas (s : Store) : Prop :=
  (s.conexiones.map Conexion.id).Nodup

instance (s : Store) : Decidable (conexionesIdUnicas s) := by
  unfold conexionesIdUnicas; infer_instance

/-- Primary keys of the port table are pairwise distinct. -/
def puertosIdUnicos (s : Store) : Prop :=
  (s.puertos.map Puerto.id).Nodup

instance (s : Store) : Decidable (puertosIdUnicos s) := by
  unfold puertosIdUnicos; infer_instance

/-- A well-formed store: the port-occupancy invariant, the
one-live-connection-per-port invariant, and distinct primary keys. -/
def buenEstado (s : Store) : Prop :=
  invariantePuertos s ∧ vivasSeparadas s ∧ conexionesIdUnicas s ∧ puertosIdUnicos s

instance (s : Store) : Decidable (buenEstado s) := by
  unfold buenEstado; infer_instance

/-- Stores reachable through the four core operations from a well-formed
store, under the restriction that the state-update endpoint is never
applied to an already `FINALIZADA` connection (the source has no guard
enforcing this; without the restriction the invariant is not
preserved).  Key generation for `crearConexion` is reflected by the
freshness hypothesis on `nuevoId`. -/
inductive AlcanzableSinReactivar : Store → Prop where
  | base (s : Store) : buenEstado s → AlcanzableSinReactivar s
  | crear (s : Store) (r : CrearReq) (nuevoId : Nat) :
      AlcanzableSinReactivar s →
      nuevoId ∉ s.conexiones.map Conexion.id →
      AlcanzableSinReactivar (crearConexion s r nuevoId).2
  | actualizar (s : Store) (cid : Nat) (r : ActualizarReq) :
      AlcanzableSinReactivar s →
      (∀ c ∈ s.conexiones, c.id = cid → ¬ c.estado = .FINALIZADA) →
      AlcanzableSinReactivar (actualizarConexion s cid r).2
  | finalizar (s : Store) (cid : Nat) (ahora : Nat) :
      AlcanzableSinReactivar s →
      AlcanzableSinReactivar (finalizarConexion s cid ahora).2
  | eliminar (s : Store) (cid : Nat) (ahora : Nat) :
      AlcanzableSinReactivar s →
      AlcanzableSinReactivar (eliminarCliente s cid ahora).2

/-! Concrete stores and requests used by the counterexamples and
witnesses below.  All keys are small naturals; dates are arbitrary
timestamps. -/

/-- Store for the reachability counterexample: one NAP with one free
port, two clients, one plan, no connections. -/
def trazaBase : Store :=
  { naps := [{ id := 1, estado := .ACTIVO, total_puertos := 1 }]
    puertos := [{ id := 1, nap_id := 1, estado := .LIBRE, nota := none }]
    clientes := [{ id := 1 }, { id := 2 }]
    planes := [{ id := 1 }]
    conexiones := [] }

/-- Step 1 of the trace: allocate client 1 on port 1. -/
def traza₁ : Respuesta Conexion × Store :=
  crearConexion trazaBase
    { puerto_id := 1, cliente_id := 1, plan_id := 1, fecha_inicio := 10,
      fecha_fin := none, creado_por := 1 } 1

/-- Step 2: finalize connection 1 through the state-update endpoint. -/
def traza₂ : Respuesta Unit × Store :=
  actualizarConexion traza₁.2 1 { plan_id := none, fecha_fin := none, estado := some .FINALIZADA }

/-- Step 3: allocate client 2 on the (again free) port 1. -/
def traza₃ : Respuesta Conexion × Store :=
  crearConexion traza₂.2
    { puerto_id := 1, cliente_id := 2, plan_id := 1, fecha_inicio := 30,
      fecha_fin := none, creado_por := 1 } 2

/-- Step 4: move the `FINALIZADA` connection 1 to `SUSPENDIDA` through
the state-update endpoint (the source has no guard against this). -/
def traza₄ : Respuesta Unit × Store :=
  actualizarConexion traza₃.2 1 { plan_id := none, fecha_fin := none, estado := some .SUSPENDIDA }

/-- Step 5: finalize connection 2, which frees port 1 while the revived
connection 1 is still `SUSPENDIDA` on it. -/
def traza₅ : Respuesta Unit × Store :=
  finalizarConexion traza₄.2 2 50

/-- A `FINALIZADA` connection row, named so witnesses can refer to it. -/
def conexionC2 : Conexion :=
  { id := 1, puerto_id := 1, cliente_id := 1, plan_id := 1,
    fecha_inicio := 10, fecha_fin := some 20, estado := .FINALIZADA,
    creado_por := 1 }

/-- Store for the terminality counterexample: a `FINALIZADA` connection
on a free port. -/
def tiendaC2 : Store :=
  { naps := [{ id := 1, estado := .ACTIVO, total_puertos := 1 }]
    puertos := [{ id := 1, nap_id := 1, estado := .LIBRE, nota := none }]
    clientes := [{ id := 1 }]
    planes := [{ id := 1 }]
    conexiones := [conexionC2] }

/-- Store for the allocation-atomicity counterexample: a free port, a
client and a plan, no connections. -/
def tiendaC3 : Store :=
  { naps := [{ id := 1, estado := .ACTIVO, total_puertos := 2 }]
    puertos := [{ id := 1, nap_id := 1, estado := .LIBRE, nota := none }]
    clientes := [{ id := 1 }]
    planes := [{ id := 1 }]
    conexiones := [] }

/-- Allocation request used by the atomicity counterexample. -/
def solicitudC3 : CrearReq :=
  { puerto_id := 1, cliente_id := 1, plan_id := 1, fecha_inicio := 10,
    fecha_fin := none, creado_por := 1 }

/-- Store for the allocation-error counterexample: port and plan exist,
the port is free and carries no connection at all, but the client table
is empty. -/
def tiendaC4 : Store :=
  { naps := [{ id := 1, estado := .ACTIVO, total_puertos := 1 }]
    puertos := [{ id := 1, nap_id := 1, estado := .LIBRE, nota := none }]
    clientes := []
    planes := [{ id := 1 }]
    conexiones := [] }

/-- Allocation request used by the allocation-error counterexample. -/
def solicitudC4 : CrearReq :=
  { puerto_id := 1, cliente_id := 1, plan_id := 1, fecha_inicio := 10,
    fecha_fin := none, creado_por := 1 }

/-- An `ACTIVA` connection row without an end date, named so witnesses
can refer to it. -/
def conexionC5 : Conexion :=
  { id := 1, puerto_id := 1, cliente_id := 1, plan_id := 1,
    fecha_inicio := 10, fecha_fin := none, estado := .ACTIVA,
    creado_por := 1 }

/-- Store for the transition-effects counterexample: an `ACTIVA`
connection without an end date on an occupied port. -/
def tiendaC5 : Store :=
  { naps := [{ id := 1, estado := .ACTIVO, total_puertos := 1 }]
    puertos := [{ id := 1, nap_id := 1, estado := .OCUPADO, nota := none }]
    clientes := [{ id := 1 }]
    planes := [{ id := 1 }]
    conexiones := [conexionC5] }

/-- Store for the eager-clear counterexample: a saturated NAP with two
occupied ports, each carrying an `ACTIVA` connection. -/
def tiendaC6 : Store :=
  { naps := [{ id := 1, estado := .SATURADO, total_puertos := 2 }]
    puertos := [{ id := 1, nap_id := 1, estado := .OCUPADO, nota := none },
                { id := 2, nap_id := 1, estado := .OCUPADO, nota := none }]
    clientes := [{ id := 1 }]
    planes := [{ id := 1 }]
    conexiones := [{ id := 1, puerto_id := 1, cliente_id := 1, plan_id := 1,
                     fecha_inicio := 10, fecha_fin := none, estado := .ACTIVA,
                     creado_por := 1 },
                   { id := 2, puerto_id := 2, cliente_id := 1, plan_id := 1,
                     fecha_inicio := 10, fecha_fin := none, estado := .ACTIVA,
                     creado_por := 1 }] }

/-- Store for the capacity-scan counterexample: a NAP in state
`MANTENIMIENTO` whose single port is occupied (100% occupancy). -/
def tiendaC7 : Store :=
  { naps := [{ id := 1, estado := .MANTENIMIENTO, total_puertos := 1 }]
    puertos := [{ id := 1, nap_id := 1, estado := .OCUPADO, nota := none }]
    clientes := []
    planes := []
    conexiones := [] }

/-- Store for the client-deletion failing input: client 1 has one
`ACTIVA` and one `SUSPENDIDA` connection on two occupied ports. -/
def tiendaC9 : Store :=
  { naps := [{ id := 1, estado := .ACTIVO, total_puertos := 2 }]
    puertos := [{ id := 1, nap_id := 1, estado := .OCUPADO, nota := none },
                { id := 2, nap_id := 1, estado := .OCUPADO, nota := none }]
    clientes := [{ id := 1 }]
    planes := [{ id := 1 }]
    conexiones := [{ id := 10, puerto_id := 1, cliente_id := 1, plan_id := 1,
                     fecha_inicio := 10, fecha_fin := none, estado := .ACTIVA,
                     creado_por := 1 },
                   { id := 11, puerto_id := 2, cliente_id := 1, plan_id := 1,
                     fecha_inicio := 10, fecha_fin := none, estado := .SUSPENDIDA,
                     creado_por := 1 }] }

/-- Store for the port-endpoint counterexample: an occupied port whose
only connection is `SUSPENDIDA` (the invariant holds). -/
def tiendaC10 : Store :=
  { naps := [{ id := 1, estado := .ACTIVO, total_puertos := 1 }]
    puertos := [{ id := 1, nap_id := 1, estado := .OCUPADO, nota := none }]
    clientes := [{ id := 1 }]
    planes := [{ id := 1 }]
    conexiones := [{ id := 1, puerto_id := 1, cliente_id := 1, plan_id := 1,
                     fecha_inicio := 10, fecha_fin := none, estado := .SUSPENDIDA,
                     creado_por := 1 }] }

/-- Instance columns used by the audit witness: one changed field
(`plan_id`), two unchanged ones. -/
def camposC8 : List CampoInstancia :=
  [{ nombre := "plan_id", valorPrevio := 3, valorActual := 7 },
   { nombre := "estado", valorPrevio := 1, valorActual := 1 },
   { nombre := "puerto_id", valorPrevio := 4, valorActual := 4 }]

/-- Update request that only asks for state `ACTIVA`. -/
def solicitudReactivar : ActualizarReq :=
  { plan_id := none, fecha_fin := none, estado := some .ACTIVA }

/-- Update request that only asks for state `SUSPENDIDA`. -/
def solicitudSuspender : ActualizarReq :=
  { plan_id := none, fecha_fin := none, estado := some .SUSPENDIDA }

/-- Update request that only asks for state `FINALIZADA`. -/
def solicitudFinalizar : ActualizarReq :=
  { plan_id := none, fecha_fin := none, estado := some .FINALIZADA }

/-- Port request that only asks for state `LIBRE`. -/
def solicitudLiberar : PuertoReq :=
  { estado := some .LIBRE, nota := none }

/-- Port request that only asks for state `OCUPADO`. -/
def solicitudOcupar : PuertoReq :=
  { estado := some .OCUPADO, nota := none }

/-- Store for the capacity-scan witness: NAP 1 is `ACTIVO` at 100%
occupancy (to be saturated by the scan), NAP 2 is `ACTIVO` at 80%
occupancy (to be reported as near saturation). -/
def tiendaEscaneo : Store :=
  { naps := [{ id := 1, estado := .ACTIVO, total_puertos := 1 },
             { id := 2, estado := .ACTIVO, total_puertos := 5 }]
    puertos := [{ id := 1, nap_id := 1, estado := .OCUPADO, nota := none },
                { id := 10, nap_id := 2, estado := .OCUPADO, nota := none },
                { id := 11, nap_id := 2, estado := .OCUPADO, nota := none },
                { id := 12, nap_id := 2, estado := .OCUPADO, nota := none },
                { id := 13, nap_id := 2, estado := .OCUPADO, nota := none },
                { id := 14, nap_id := 2, estado := .LIBRE, nota := none }]
    clientes := []
    planes := []
    conexiones := [] }

/-! Helper lemmas about the store operations, used by the invariant
preservation development below. -/

@[simp] theorem reemplazarConexion_puertos (s : Store) (c : Conexion) :
    (reemplazarConexion s c).puertos = s.puertos := rfl

@[simp] theorem reemplazarConexion_naps (s : Store) (c : Conexion) :
    (reemplazarConexion s c).naps = s.naps := rfl

@[simp] theorem reemplazarConexion_clientes (s : Store) (c : Conexion) :
    (reemplazarConexion s c).clientes = s.clientes := rfl

@[simp] theorem setPuertoEstado_conexiones (s : Store) (pid : Nat) (e : EstadoPuerto) :
    (setPuertoEstado s pid e).conexiones = s.conexiones := rfl

@[simp] theorem setPuertoEstado_naps (s : Store) (pid : Nat) (e : EstadoPuerto) :
    (setPuertoEstado s pid e).naps = s.naps := rfl

@[simp] theorem setPuertoEstado_clientes (s : Store) (pid : Nat) (e : EstadoPuerto) :
    (setPuertoEstado s pid e).clientes = s.clientes := rfl

@[simp] theorem setNAPEstado_conexiones (s : Store) (nid : Nat) (e : EstadoNAP) :
    (setNAPEstado s nid e).conexiones = s.conexiones := rfl

@[simp] theorem setNAPEstado_puertos (s : Store) (nid : Nat) (e : EstadoNAP) :
    (setNAPEstado s nid e).puertos = s.puertos := rfl

theorem findConexion_eq_some {s : Store} {cid : Nat} {c : Conexion}
    (h : findConexion s cid = some c) : c ∈ s.conexiones ∧ c.id = cid := by
  unfold findConexion at h
  refine ⟨List.mem_of_find?_eq_some h, ?_⟩
  have hp := List.find?_some h
  simpa using hp

theorem findPuerto_eq_some {s : Store} {pid : Nat} {p : Puerto}
    (h : findPuerto s pid = some p) : p ∈ s.puertos ∧ p.id = pid := by
  unfold findPuerto at h
  refine ⟨List.mem_of_find?_eq_some h, ?_⟩
  have hp := List.find?_some h
  simpa using hp

theorem findNAP_eq_some {s : Store} {nid : Nat} {n : NAP}
    (h : findNAP s nid = some n) : n ∈ s.naps ∧ n.id = nid := by
  unfold findNAP at h
  refine ⟨List.mem_of_find?_eq_some h, ?_⟩
  have hp := List.find?_some h
  simpa using hp

theorem findPuerto_eq_none {s : Store} {pid : Nat} (h : findPuerto s pid = none) :
    ∀ p ∈ s.puertos, ¬ p.id = pid := by
  unfold findPuerto at h
  rw [List.find?_eq_none] at h
  intro p hp
  have := h p hp
  simpa using this

theorem idsConexiones_reemplazo (s : Store) (c : Conexion) :
    (reemplazarConexion s c).conexiones.map Conexion.id = s.conexiones.map Conexion.id := by
  show (s.conexiones.map fun x => if x.id = c.id then c else x).map Conexion.id
      = s.conexiones.map Conexion.id
  rw [List.map_map]
  refine List.map_congr_left ?_
  intro x _
  by_cases h : x.id = c.id
  · rw [Function.comp_apply, if_pos h]
    exact h.symm
  · rw [Function.comp_apply, if_neg h]

theorem idsPuertos_set (s : Store) (pid : Nat) (e : EstadoPuerto) :
    (setPuertoEstado s pid e).puertos.map Puerto.id = s.puertos.map Puerto.id := by
  show (s.puertos.map fun p => if p.id = pid then { p with estado := e } else p).map Puerto.id
      = s.puertos.map Puerto.id
  rw [List.map_map]
  refine List.map_congr_left ?_
  intro p _
  by_cases h : p.id = pid
  · rw [Function.comp_apply, if_pos h]
  · rw [Function.comp_apply, if_neg h]

theorem setPuertoEstado_ausente {s : Store} {pid : Nat} (e : EstadoPuerto)
    (h : ∀ p ∈ s.puertos, ¬ p.id = pid) : setPuertoEstado s pid e = s := by
  unfold setPuertoEstado
  have h₂ : (s.puertos.map fun p => if p.id = pid then { p with estado := e } else p)
      = s.puertos.map fun p => p :=
    List.map_congr_left fun p hp => if_neg (h p hp)
  rw [h₂, List.map_id']

theorem conexion_inj {s : Store} (hu : conexionesIdUnicas s) {a b : Conexion}
    (ha : a ∈ s.conexiones) (hb : b ∈ s.conexiones) (hid : a.id = b.id) : a = b :=
  List.inj_on_of_nodup_map hu ha hb hid

theorem vivas_unica {s : Store} (hsep : vivasSeparadas s) {a b : Conexion}
    (ha : a ∈ s.conexiones) (hb : b ∈ s.conexiones) (hva : conexionViva a)
    (hvb : conexionViva b) (hpid : a.puerto_id = b.puerto_id) : a = b := by
  by_contra hne
  have hsym : Symmetric fun c₁ c₂ : Conexion =>
      conexionViva c₁ → conexionViva c₂ → ¬ c₁.puerto_id = c₂.puerto_id := by
    intro x y hxy hy hx heq
    exact hxy hx hy heq.symm
  exact (List.Pairwise.forall hsym hsep ha hb hne) hva hvb hpid

theorem hayVivaEn_set (s : Store) (pid q : Nat) (e : EstadoPuerto) :
    hayVivaEn (setPuertoEstado s pid e) q ↔ hayVivaEn s q := Iff.rfl

theorem hayVivaEn_reemplazo {s : Store} {c c' : Conexion}
    (hmem : c ∈ s.conexiones) (hid : c'.id = c.id) (pid : Nat) :
    hayVivaEn (reemplazarConexion s c') pid ↔
      (c'.puerto_id = pid ∧ conexionViva c') ∨
        ∃ x ∈ s.conexiones, ¬ x.id = c.id ∧ x.puerto_id = pid ∧ conexionViva x := by
  unfold hayVivaEn reemplazarConexion
  simp only [List.mem_map]
  constructor
  · rintro ⟨y, ⟨x, hx, rfl⟩, hpid, hviva⟩
    by_cases h : x.id = c'.id
    · rw [if_pos h] at hpid hviva
      exact Or.inl ⟨hpid, hviva⟩
    · rw [if_neg h] at hpid hviva
      rw [hid] at h
      exact Or.inr ⟨x, hx, h, hpid, hviva⟩
  · rintro (⟨hpid, hviva⟩ | ⟨x, hx, hne, hpid, hviva⟩)
    · exact ⟨c', ⟨c, hmem, by rw [if_pos hid.symm]⟩, hpid, hviva⟩
    · exact ⟨x, ⟨x, hx, by rw [if_neg fun hh => hne (hh.trans hid)]⟩, hpid, hviva⟩

theorem hayVivaEn_split {s : Store} {c : Conexion} (hu : conexionesIdUnicas s)
    (hmem : c ∈ s.conexiones) (pid : Nat) :
    hayVivaEn s pid ↔
      (c.puerto_id = pid ∧ conexionViva c) ∨
        ∃ x ∈ s.conexiones, ¬ x.id = c.id ∧ x.puerto_id = pid ∧ conexionViva x := by
  unfold hayVivaEn
  constructor
  · rintro ⟨x, hx, hpid, hviva⟩
    by_cases h : x.id = c.id
    · have hxc : x = c := conexion_inj hu hx hmem h
      rw [hxc] at hpid hviva
      exact Or.inl ⟨hpid, hviva⟩
    · exact Or.inr ⟨x, hx, h, hpid, hviva⟩
  · rintro (⟨hpid, hviva⟩ | ⟨x, hx, _, hpid, hviva⟩)
    · exact ⟨c, hmem, hpid, hviva⟩
    · exact ⟨x, hx, hpid, hviva⟩

@[simp] theorem puertoEstado_mk (q : Puerto) (e : EstadoPuerto) :
    ({ q with estado := e } : Puerto).estado = e := rfl

@[simp] theorem puertoEstado_mk_id (q : Puerto) (e : EstadoPuerto) :
    ({ q with estado := e } : Puerto).id = q.id := rfl

@[simp] theorem puertoEstado_mk_nap (q : Puerto) (e : EstadoPuerto) :
    ({ q with estado := e } : Puerto).nap_id = q.nap_id := rfl

theorem vivasSeparadas_set (s : Store) (pid : Nat) (e : EstadoPuerto) :
    vivasSeparadas (setPuertoEstado s pid e) ↔ vivasSeparadas s := Iff.rfl

theorem vivas_reemplazo_muerta {s : Store} {c' : Conexion} (hdead : ¬ conexionViva c')
    (h : vivasSeparadas s) : vivasSeparadas (reemplazarConexion s c') := by
  unfold vivasSeparadas at h ⊢
  show (s.conexiones.map fun x => if x.id = c'.id then c' else x).Pairwise _
  rw [List.pairwise_map]
  refine h.imp ?_
  intro a b hab hva hvb
  by_cases ha : a.id = c'.id
  · rw [if_pos ha] at hva
    exact absurd hva hdead
  · by_cases hb : b.id = c'.id
    · rw [if_pos hb] at hvb
      exact absurd hvb hdead
    · rw [if_neg ha] at hva ⊢
      rw [if_neg hb] at hvb ⊢
      exact hab hva hvb

theorem vivas_reemplazo_viva {s : Store} {c c' : Conexion} (hu : conexionesIdUnicas s)
    (hmem : c ∈ s.conexiones) (hviva : conexionViva c) (hid : c'.id = c.id)
    (hpid : c'.puerto_id = c.puerto_id) (h : vivasSeparadas s) :
    vivasSeparadas (reemplazarConexion s c') := by
  unfold vivasSeparadas at h ⊢
  show (s.conexiones.map fun x => if x.id = c'.id then c' else x).Pairwise _
  rw [List.pairwise_map]
  refine List.Pairwise.imp_of_mem ?_ h
  intro a b hamem hbmem hab hva hvb
  by_cases ha : a.id = c'.id
  · have hac : a = c := conexion_inj hu hamem hmem (ha.trans hid)
    by_cases hb : b.id = c'.id
    · have hbc : b = c := conexion_inj hu hbmem hmem (hb.trans hid)
      rw [hac, hbc] at hab
      exact absurd rfl (hab hviva hviva)
    · rw [if_pos ha]
      rw [if_neg hb] at hvb ⊢
      rw [hac] at hab
      rw [hpid]
      exact hab hviva hvb
  · by_cases hb : b.id = c'.id
    · have hbc : b = c := conexion_inj hu hbmem hmem (hb.trans hid)
      rw [if_neg ha] at hva ⊢
      rw [if_pos hb]
      rw [hbc] at hab
      rw [hpid]
      exact hab hva hviva
    · rw [if_neg ha] at hva ⊢
      rw [if_neg hb] at hvb ⊢
      exact hab hva hvb

theorem invariante_reemplazo_otro {s : Store} {c c' : Conexion}
    (hinv : invariantePuertos s) (huc : conexionesIdUnicas s)
    (hmem : c ∈ s.conexiones) (hid : c'.id = c.id) (hpid : c'.puerto_id = c.puerto_id)
    {q : Puerto} (hq : q ∈ s.puertos) (hqid : ¬ q.id = c.puerto_id) :
    q.estado = .OCUPADO ↔ hayVivaEn (reemplazarConexion s c') q.id := by
  have h1 := hinv q hq
  rw [hayVivaEn_split huc hmem q.id] at h1
  rw [hayVivaEn_reemplazo hmem hid q.id]
  constructor
  · intro h
    rcases h1.mp h with ⟨hcp, _⟩ | hX
    · exact absurd hcp fun hh => hqid hh.symm
    · exact Or.inr hX
  · rintro (⟨hcp, _⟩ | hX)
    · rw [hpid] at hcp
      exact absurd hcp fun hh => hqid hh.symm
    · exact h1.mpr (Or.inr hX)

theorem buen_reemplazo_misma {s : Store} {c c' : Conexion}
    (hb : buenEstado s) (hmem : c ∈ s.conexiones) (hid : c'.id = c.id)
    (hpid : c'.puerto_id = c.puerto_id) (hviva : conexionViva c' ↔ conexionViva c) :
    buenEstado (reemplazarConexion s c') := by
  obtain ⟨hinv, hsep, huc, hup⟩ := hb
  refine ⟨?_, ?_, ?_, ?_⟩
  · intro p hp
    rw [reemplazarConexion_puertos] at hp
    rw [hayVivaEn_reemplazo hmem hid p.id, hpid, hviva]
    rw [← hayVivaEn_split huc hmem p.id]
    exact hinv p hp
  · by_cases hc : conexionViva c
    · exact vivas_reemplazo_viva huc hmem hc hid hpid hsep
    · exact vivas_reemplazo_muerta (fun hv => hc (hviva.mp hv)) hsep
  · show ((reemplazarConexion s c').conexiones.map Conexion.id).Nodup
    rw [idsConexiones_reemplazo]
    exact huc
  · show ((reemplazarConexion s c').puertos.map Puerto.id).Nodup
    rw [reemplazarConexion_puertos]
    exact hup

theorem buen_liberar {s : Store} {c c' : Conexion}
    (hb : buenEstado s) (hmem : c ∈ s.conexiones) (hviva : conexionViva c)
    (hid : c'.id = c.id) (hpid : c'.puerto_id = c.puerto_id) (hdead : ¬ conexionViva c') :
    buenEstado (setPuertoEstado (reemplazarConexion s c') c.puerto_id .LIBRE) := by
  obtain ⟨hinv, hsep, huc, hup⟩ := hb
  refine ⟨?_, ?_, ?_, ?_⟩
  · intro p hp
    rw [show (setPuertoEstado (reemplazarConexion s c') c.puerto_id .LIBRE).puertos
        = s.puertos.map (fun q => if q.id = c.puerto_id then { q with estado := .LIBRE } else q)
        from rfl] at hp
    obtain ⟨q, hq, rfl⟩ := List.mem_map.mp hp
    rw [hayVivaEn_set]
    by_cases hqid : q.id = c.puerto_id
    · rw [if_pos hqid]
      simp only [puertoEstado_mk, puertoEstado_mk_id]
      rw [hayVivaEn_reemplazo hmem hid q.id]
      refine iff_of_false (by decide) ?_
      rintro (⟨_, hv⟩ | ⟨x, hx, hne, hxp, hxv⟩)
      · exact hdead hv
      · have hxc : x = c := vivas_unica hsep hx hmem hxv hviva (hxp.trans hqid)
        rw [hxc] at hne
        exact hne rfl
    · rw [if_neg hqid]
      exact invariante_reemplazo_otro hinv huc hmem hid hpid hq hqid
  · rw [vivasSeparadas_set]
    exact vivas_reemplazo_muerta hdead hsep
  · show ((setPuertoEstado (reemplazarConexion s c') c.puerto_id .LIBRE).conexiones.map
        Conexion.id).Nodup
    rw [setPuertoEstado_conexiones, idsConexiones_reemplazo]
    exact huc
  · show ((setPuertoEstado (reemplazarConexion s c') c.puerto_id .LIBRE).puertos.map
        Puerto.id).Nodup
    rw [idsPuertos_set, reemplazarConexion_puertos]
    exact hup

theorem buen_ocupar {s : Store} {c c' : Conexion}
    (hb : buenEstado s) (hmem : c ∈ s.conexiones) (hviva : conexionViva c)
    (hid : c'.id = c.id) (hpid : c'.puerto_id = c.puerto_id) (hviva' : conexionViva c') :
    buenEstado (setPuertoEstado (reemplazarConexion s c') c.puerto_id .OCUPADO) := by
  obtain ⟨hinv, hsep, huc, hup⟩ := hb
  refine ⟨?_, ?_, ?_, ?_⟩
  · intro p hp
    rw [show (setPuertoEstado (reemplazarConexion s c') c.puerto_id .OCUPADO).puertos
        = s.puertos.map (fun q => if q.id = c.puerto_id then { q with estado := .OCUPADO } else q)
        from rfl] at hp
    obtain ⟨q, hq, rfl⟩ := List.mem_map.mp hp
    rw [hayVivaEn_set]
    by_cases hqid : q.id = c.puerto_id
    · rw [if_pos hqid]
      simp only [puertoEstado_mk, puertoEstado_mk_id]
      rw [hayVivaEn_reemplazo hmem hid q.id]
      exact iff_of_true trivial (Or.inl ⟨hpid.trans hqid.symm, hviva'⟩)
    · rw [if_neg hqid]
      exact invariante_reemplazo_otro hinv huc hmem hid hpid hq hqid
  · rw [vivasSeparadas_set]
    exact vivas_reemplazo_viva huc hmem hviva hid hpid hsep
  · show ((setPuertoEstado (reemplazarConexion s c') c.puerto_id .OCUPADO).conexiones.map
        Conexion.id).Nodup
    rw [setPuertoEstado_conexiones, idsConexiones_reemplazo]
    exact huc
  · show ((setPuertoEstado (reemplazarConexion s c') c.puerto_id .OCUPADO).puertos.map
        Puerto.id).Nodup
    rw [idsPuertos_set, reemplazarConexion_puertos]
    exact hup

theorem buen_crear {s : Store} {r : CrearReq} {nuevoId : Nat}
    (hb : buenEstado s) (hfresh : nuevoId ∉ s.conexiones.map Conexion.id) :
    buenEstado (crearConexion s r nuevoId).2 := by
  unfold crearConexion
  cases hp : findPuerto s r.puerto_id with
  | none => simp only [hp]; exact hb
  | some puerto =>
    simp only [hp]
    by_cases he : puerto.estado ≠ .LIBRE
    · rw [if_pos he]
      exact hb
    · rw [if_neg he]
      cases hc : findCliente s r.cliente_id with
      | none => simp only [hc]; exact hb
      | some cliente =>
        simp only [hc]
        cases hpl : findPlan s r.plan_id with
        | none => simp only [hpl]; exact hb
        | some plan =>
          simp only [hpl]
          by_cases hex : ∃ c ∈ s.conexiones, c.puerto_id = r.puerto_id ∧ c.estado = .ACTIVA
          · rw [if_pos hex]
            exact hb
          · rw [if_neg hex]
            obtain ⟨hinv, hsep, huc, hup⟩ := hb
            obtain ⟨hpm, hpid⟩ := findPuerto_eq_some hp
            have hlibre : puerto.estado = .LIBRE := not_not.mp he
            have hnoviva : ¬ hayVivaEn s r.puerto_id := by
              intro hv
              have h1 := (hinv puerto hpm).mpr (by rw [hpid]; exact hv)
              rw [hlibre] at h1
              exact EstadoPuerto.noConfusion h1
            refine ⟨?_, ?_, ?_, ?_⟩
            · intro p hpmem
              rw [show (setPuertoEstado
                  { s with conexiones := s.conexiones ++ [nuevaConexion r nuevoId] }
                  r.puerto_id .OCUPADO).puertos
                  = s.puertos.map
                      (fun q => if q.id = r.puerto_id then { q with estado := .OCUPADO } else q)
                  from rfl] at hpmem
              obtain ⟨q, hq, rfl⟩ := List.mem_map.mp hpmem
              by_cases hqid : q.id = r.puerto_id
              · rw [if_pos hqid]
                refine iff_of_true rfl ?_
                exact ⟨nuevaConexion r nuevoId,
                  List.mem_append.mpr (Or.inr (List.mem_singleton.mpr rfl)),
                  hqid.symm, Or.inl rfl⟩
              · rw [if_neg hqid]
                have h1 := hinv q hq
                constructor
                · intro h
                  obtain ⟨x, hx, hxp, hxv⟩ := h1.mp h
                  exact ⟨x, List.mem_append.mpr (Or.inl hx), hxp, hxv⟩
                · rintro ⟨x, hx, hxp, hxv⟩
                  rcases List.mem_append.mp hx with hx' | hx'
                  · exact h1.mpr ⟨x, hx', hxp, hxv⟩
                  · rw [List.mem_singleton.mp hx'] at hxp
                    exact absurd hxp fun hh => hqid hh.symm
            · show (s.conexiones ++ [nuevaConexion r nuevoId]).Pairwise _
              rw [List.pairwise_append]
              refine ⟨hsep, by simp, ?_⟩
              intro a ha b hbm
              rw [List.mem_singleton.mp hbm]
              intro hva _ heq
              exact hnoviva ⟨a, ha, heq, hva⟩
            · show ((s.conexiones ++ [nuevaConexion r nuevoId]).map Conexion.id).Nodup
              rw [List.map_append, List.nodup_append]
              refine ⟨huc, by simp, ?_⟩
              intro a h1 h2
              rw [List.mem_singleton.mp h2] at h1
              exact hfresh h1
            · show ((setPuertoEstado
                  { s with conexiones := s.conexiones ++ [nuevaConexion r nuevoId] }
                  r.puerto_id .OCUPADO).puertos.map Puerto.id).Nodup
              rw [idsPuertos_set]
              exact hup

theorem findPuerto_reemplazo (s : Store) (c : Conexion) (pid : Nat) :
    findPuerto (reemplazarConexion s c) pid = findPuerto s pid := rfl

theorem buen_liberar_sin_puerto {s : Store} {c c' : Conexion}
    (hb : buenEstado s) (hmem : c ∈ s.conexiones) (hviva : conexionViva c)
    (hid : c'.id = c.id) (hpid : c'.puerto_id = c.puerto_id) (hdead : ¬ conexionViva c')
    (habs : ∀ p ∈ s.puertos, ¬ p.id = c.puerto_id) :
    buenEstado (reemplazarConexion s c') := by
  have h2 := buen_liberar hb hmem hviva hid hpid hdead
  rwa [setPuertoEstado_ausente (s := reemplazarConexion s c') .LIBRE
    (fun p hp => habs p hp)] at h2

theorem buen_actualizar {s : Store} {cid : Nat} {r : ActualizarReq}
    (hb : buenEstado s)
    (hg : ∀ c ∈ s.conexiones, c.id = cid → ¬ c.estado = .FINALIZADA) :
    buenEstado (actualizarConexion s cid r).2 := by
  have hcore : ∀ conexion, findConexion s cid = some conexion →
      buenEstado (aplicarActualizacion s conexion r).2 := by
    intro conexion hf
    obtain ⟨hmem, hcid⟩ := findConexion_eq_some hf
    have hnofin : ¬ conexion.estado = .FINALIZADA := hg conexion hmem hcid
    have hviva : conexionViva conexion := by
      unfold conexionViva
      cases hcst : conexion.estado with
      | ACTIVA => exact Or.inl rfl
      | SUSPENDIDA => exact Or.inr rfl
      | FINALIZADA => exact absurd hcst hnofin
    have hid : (conexionActualizada conexion r).id = conexion.id := rfl
    have hpid : (conexionActualizada conexion r).puerto_id = conexion.puerto_id := rfl
    unfold aplicarActualizacion
    cases hre : r.estado with
    | none =>
      simp only [hre]
      refine buen_reemplazo_misma hb hmem hid hpid ?_
      show conexionViva (conexionActualizada conexion r) ↔ conexionViva conexion
      unfold conexionViva conexionActualizada
      rw [hre]
      exact Iff.rfl
    | some e =>
      simp only [hre]
      have hest : (conexionActualizada conexion r).estado = e := by
        unfold conexionActualizada
        rw [hre]
        rfl
      by_cases hee : e = conexion.estado
      · rw [if_pos hee]
        refine buen_reemplazo_misma hb hmem hid hpid ?_
        unfold conexionViva
        rw [hest, hee]
      · rw [if_neg hee]
        by_cases hfin : e = .FINALIZADA
        · rw [if_pos hfin]
          have hdead : ¬ conexionViva (conexionActualizada conexion r) := by
            unfold conexionViva
            rw [hest, hfin]
            rintro (h | h) <;> exact EstadoConexion.noConfusion h
          simp only [findPuerto_reemplazo]
          cases hfp : findPuerto s conexion.puerto_id with
          | none =>
            simp only [hfp]
            exact buen_liberar_sin_puerto hb hmem hviva hid hpid hdead
              (findPuerto_eq_none hfp)
          | some puerto =>
            simp only [hfp]
            exact buen_liberar hb hmem hviva hid hpid hdead
        · rw [if_neg hfin]
          have hviva' : conexionViva (conexionActualizada conexion r) := by
            unfold conexionViva
            rw [hest]
            cases e with
            | ACTIVA => exact Or.inl rfl
            | SUSPENDIDA => exact Or.inr rfl
            | FINALIZADA => exact absurd rfl hfin
          simp only [findPuerto_reemplazo]
          cases hfp : findPuerto s conexion.puerto_id with
          | none =>
            simp only [hfp]
            exact buen_reemplazo_misma hb hmem hid hpid (iff_of_true hviva' hviva)
          | some puerto =>
            simp only [hfp]
            exact buen_ocupar hb hmem hviva hid hpid hviva'
  unfold actualizarConexion
  cases hf : findConexion s cid with
  | none => simp only [hf]; exact hb
  | some conexion =>
    simp only [hf]
    cases hrp : r.plan_id with
    | none => simp only [hrp]; exact hcore conexion hf
    | some pid =>
      simp only [hrp]
      cases hfp : findPlan s pid with
      | none => simp only [hfp]; exact hb
      | some _ => simp only [hfp]; exact hcore conexion hf

theorem findNAP_set (s : Store) (pid : Nat) (e : EstadoPuerto) (nid : Nat) :
    findNAP (setPuertoEstado s pid e) nid = findNAP s nid := rfl

theorem findNAP_reemplazo (s : Store) (c : Conexion) (nid : Nat) :
    findNAP (reemplazarConexion s c) nid = findNAP s nid := rfl

theorem buen_setNAP (s : Store) (nid : Nat) (e : EstadoNAP) :
    buenEstado (setNAPEstado s nid e) ↔ buenEstado s := Iff.rfl

theorem buen_finalizar {s : Store} {cid ahora : Nat} (hb : buenEstado s) :
    buenEstado (finalizarConexion s cid ahora).2 := by
  unfold finalizarConexion
  cases hf : findConexion s cid with
  | none => simp only [hf]; exact hb
  | some conexion =>
    simp only [hf]
    by_cases hfin : conexion.estado = .FINALIZADA
    · rw [if_pos hfin]
      exact hb
    · rw [if_neg hfin]
      obtain ⟨hmem, _⟩ := findConexion_eq_some hf
      have hviva : conexionViva conexion := by
        unfold conexionViva
        cases hcst : conexion.estado with
        | ACTIVA => exact Or.inl rfl
        | SUSPENDIDA => exact Or.inr rfl
        | FINALIZADA => exact absurd hcst hfin
      have hdead : ¬ conexionViva { conexion with estado := .FINALIZADA, fecha_fin := some ahora } := by
        rintro (h | h) <;> exact EstadoConexion.noConfusion h
      simp only [findPuerto_reemplazo]
      cases hfp : findPuerto s conexion.puerto_id with
      | none =>
        simp only [hfp]
        exact buen_liberar_sin_puerto hb hmem hviva rfl rfl hdead (findPuerto_eq_none hfp)
      | some puerto =>
        simp only [hfp]
        have h2 := @buen_liberar s conexion
          { conexion with estado := .FINALIZADA, fecha_fin := some ahora }
          hb hmem hviva rfl rfl hdead
        simp only [findNAP_set, findNAP_reemplazo]
        cases hn : findNAP s puerto.nap_id with
        | none => simp only [hn]; exact h2
        | some nap =>
          simp only [hn]
          by_cases hs : nap.estado = .SATURADO
          · rw [if_pos hs]
            by_cases hpct : pctLt
                (contarOcupadosNAP
                  (setPuertoEstado
                    (reemplazarConexion s
                      { conexion with estado := .FINALIZADA, fecha_fin := some ahora })
                    conexion.puerto_id .LIBRE)
                  nap.id)
                nap.total_puertos 100
            · rw [if_pos hpct]
              exact (buen_setNAP _ _ _).mpr h2
            · rw [if_neg hpct]
              exact h2
          · rw [if_neg hs]
            exact h2

theorem buen_clientes (s : Store) (l : List Cliente) :
    buenEstado { s with clientes := l } ↔ buenEstado s := Iff.rfl

theorem buen_fold {s : Store} {ahora : Nat} (l : List Conexion) :
    ∀ acc : Store, buenEstado acc →
      acc.puertos.map Puerto.id = s.puertos.map Puerto.id →
      (∀ c ∈ l, c ∈ acc.conexiones ∧ c.estado = .ACTIVA) →
      (l.map Conexion.id).Nodup →
      buenEstado (l.foldl (finalizarDeCliente s ahora) acc) := by
  induction l with
  | nil =>
    intro acc hb _ _ _
    exact hb
  | cons c0 t ih =>
    intro acc hb hids hall hnd
    rw [List.foldl_cons]
    obtain ⟨hc0mem, hc0act⟩ := hall c0 (List.mem_cons_self c0 t)
    have hviva : conexionViva c0 := Or.inl hc0act
    have hdead : ¬ conexionViva { c0 with estado := .FINALIZADA, fecha_fin := some ahora } := by
      rintro (h | h) <;> exact EstadoConexion.noConfusion h
    rw [List.map_cons] at hnd
    have hnd' := List.nodup_cons.mp hnd
    cases hfp : findPuerto s c0.puerto_id with
    | some puerto =>
      have hstep : finalizarDeCliente s ahora acc c0
          = setPuertoEstado
              (reemplazarConexion acc { c0 with estado := .FINALIZADA, fecha_fin := some ahora })
              c0.puerto_id .LIBRE := by
        unfold finalizarDeCliente
        rw [hfp]
      rw [hstep]
      refine ih _ (buen_liberar hb hc0mem hviva rfl rfl hdead) ?_ ?_ hnd'.2
      · rw [idsPuertos_set, reemplazarConexion_puertos]
        exact hids
      · intro c hc
        obtain ⟨hcm, hca⟩ := hall c (List.mem_cons_of_mem c0 hc)
        have hcne : ¬ c.id = c0.id := by
          intro he
          exact hnd'.1 (he ▸ List.mem_map_of_mem Conexion.id hc)
        refine ⟨?_, hca⟩
        show c ∈ (reemplazarConexion acc
            { c0 with estado := .FINALIZADA, fecha_fin := some ahora }).conexiones
        exact List.mem_map.mpr ⟨c, hcm, if_neg hcne⟩
    | none =>
      have hstep : finalizarDeCliente s ahora acc c0
          = reemplazarConexion acc { c0 with estado := .FINALIZADA, fecha_fin := some ahora } := by
        unfold finalizarDeCliente
        rw [hfp]
      rw [hstep]
      have habs : ∀ p ∈ acc.puertos, ¬ p.id = c0.puerto_id := by
        intro p hp he
        have h1 : p.id ∈ s.puertos.map Puerto.id := by
          rw [← hids]
          exact List.mem_map_of_mem Puerto.id hp
        obtain ⟨p', hp', hp'id⟩ := List.mem_map.mp h1
        exact findPuerto_eq_none hfp p' hp' (by rw [hp'id, he])
      refine ih _ (buen_liberar_sin_puerto hb hc0mem hviva rfl rfl hdead habs) ?_ ?_ hnd'.2
      · rw [reemplazarConexion_puertos]
        exact hids
      · intro c hc
        obtain ⟨hcm, hca⟩ := hall c (List.mem_cons_of_mem c0 hc)
        have hcne : ¬ c.id = c0.id := by
          intro he
          exact hnd'.1 (he ▸ List.mem_map_of_mem Conexion.id hc)
        exact ⟨List.mem_map.mpr ⟨c, hcm, if_neg hcne⟩, hca⟩

theorem buen_eliminar {s : Store} {cid ahora : Nat} (hb : buenEstado s) :
    buenEstado (eliminarCliente s cid ahora).2 := by
  unfold eliminarCliente
  cases hf : findCliente s cid with
  | none => simp only [hf]; exact hb
  | some cliente =>
    simp only [hf]
    have hsub : ((s.conexiones.filter fun c => decide (c.cliente_id = cid)).filter
        fun c => decide (c.estado = .ACTIVA)).Sublist s.conexiones :=
      (List.filter_sublist _).trans (List.filter_sublist _)
    have hnd : (((s.conexiones.filter fun c => decide (c.cliente_id = cid)).filter
        fun c => decide (c.estado = .ACTIVA)).map Conexion.id).Nodup :=
      List.Nodup.sublist (hsub.map Conexion.id) hb.2.2.1
    have hall : ∀ c ∈ (s.conexiones.filter fun c => decide (c.cliente_id = cid)).filter
        (fun c => decide (c.estado = .ACTIVA)), c ∈ s.conexiones ∧ c.estado = .ACTIVA := by
      intro c hc
      have h1 := List.mem_filter.mp hc
      have h2 := List.mem_filter.mp h1.1
      exact ⟨h2.1, of_decide_eq_true h1.2⟩
    exact buen_fold _ s hb rfl hall hnd

theorem alcanzable_buen {s : Store} (h : AlcanzableSinReactivar s) : buenEstado s := by
  induction h with
  | base s hb => exact hb
  | crear s r nuevoId _ hfresh ih => exact buen_crear ih hfresh
  | actualizar s cid r _ hg ih => exact buen_actualizar ih hg
  | finalizar s cid ahora _ ih => exact buen_finalizar ih
  | eliminar s cid ahora _ ih => exact buen_eliminar ih

/-! Claim theorems. -/

/-- C1 (amended): the port-occupancy invariant — a port is `OCUPADO`
exactly when a live (`ACTIVA` or `SUSPENDIDA`) connection references it
— holds in every store reachable through `crearConexion`,
`actualizarConexion`, `finalizarConexion` and `eliminarCliente` from a
well-formed store, provided the state-update endpoint
`actualizarConexion` is never applied to an already `FINALIZADA`
connection.  Without that proviso the claim is false: the source has no
guard preventing a `FINALIZADA` connection from being revived, and the
counterexample trace reaches a store violating the invariant. -/
theorem c1_invariante_ocupacion (s : Store) (h : AlcanzableSinReactivar s) :
    invariantePuertos s :=
  (alcanzable_buen h).1

/-- Witness for `c1_invariante_ocupacion` at the concrete base store. -/
theorem c1_invariante_ocupacion_witness : invariantePuertos trazaBase :=
  c1_invariante_ocupacion trazaBase (.base trazaBase (by decide))

/-- C1 counterexample: from a well-formed store, five calls of the core
operations all succeed (allocate port 1, finalize that connection
through the state-update endpoint, allocate port 1 to a second client,
revive the finalized connection to `SUSPENDIDA` through the
state-update endpoint, finalize the second connection) and reach a
store where port 1 is `LIBRE` while a `SUSPENDIDA` connection still
references it — the invariant of the claim fails on a reachable
state. -/
theorem c1_counterexample :
    buenEstado trazaBase ∧
    traza₁.1.esOk ∧ traza₂.1.esOk ∧ traza₃.1.esOk ∧ traza₄.1.esOk ∧ traza₅.1.esOk ∧
    ¬ invariantePuertos traza₅.2 := by decide

/-- C2 (amended): the dedicated finalization endpoint
`finalizarConexion` rejects an already `FINALIZADA` connection with the
already-finalized error and leaves the store untouched.  The
state-update endpoint `actualizarConexion`, contrary to the claim, has
no such guard and applies the requested transition to a `FINALIZADA`
connection (see the counterexample). -/
theorem c2_finalizada_terminal (s : Store) (cid ahora : Nat) (c : Conexion)
    (hfind : findConexion s cid = some c) (hfin : c.estado = .FINALIZADA) :
    finalizarConexion s cid ahora = (.error .yaFinalizada, s) := by
  unfold finalizarConexion
  simp only [hfind]
  rw [if_pos hfin]

/-- Witness for `c2_finalizada_terminal` at a concrete store. -/
theorem c2_finalizada_terminal_witness :
    (findConexion tiendaC2 1 = some conexionC2 ∧ conexionC2.estado = .FINALIZADA) ∧
      finalizarConexion tiendaC2 1 99 = (.error .yaFinalizada, tiendaC2) :=
  ⟨⟨by decide, by decide⟩,
    c2_finalizada_terminal tiendaC2 1 99 conexionC2 (by decide) (by decide)⟩

/-- C2 counterexample: the state-update endpoint applied to the
`FINALIZADA` connection of `tiendaC2` with requested state `ACTIVA`
answers success (not the already-finalized error) and mutates both the
connection (now `ACTIVA`) and its port (now `OCUPADO`). -/
theorem c2_counterexample :
    (actualizarConexion tiendaC2 1 solicitudReactivar).1 = .ok () ∧
    (actualizarConexion tiendaC2 1 solicitudReactivar).2 ≠ tiendaC2 ∧
    ((actualizarConexion tiendaC2 1 solicitudReactivar).2.conexiones.map Conexion.estado)
      = [.ACTIVA] ∧
    ((actualizarConexion tiendaC2 1 solicitudReactivar).2.puertos.map Puerto.estado)
      = [.OCUPADO] := by decide

/-- C3 (amended): `crearConexion` runs without a transaction.  A failed
precondition leaves the store exactly as it was (first two conjuncts:
every non-success outcome of the fault-free handler, and any outcome in
which the `Conexion.create` write itself fails, leaves the store
unchanged).  But the writes are not atomic: when the `puerto.update`
write fails after `Conexion.create` succeeded, the new connection row
persists while the port keeps its old state (third conjunct).  The
fault-free run of the fault model is exactly `crearConexion` (fourth
conjunct). -/
theorem c3_atomicidad (s : Store) (r : CrearReq) (nuevoId : Nat) (b : Bool) :
    ((crearConexion s r nuevoId).1.esOk ∨ (crearConexion s r nuevoId).2 = s) ∧
    (crearConexionConFallo s r nuevoId true b).2 = s ∧
    ((crearConexionConFallo s r nuevoId false true).2 =
      if (findPuerto s r.puerto_id).map Puerto.estado = some .LIBRE ∧
          (findCliente s r.cliente_id).isSome ∧ (findPlan s r.plan_id).isSome ∧
          ¬ (∃ c ∈ s.conexiones, c.puerto_id = r.puerto_id ∧ c.estado = .ACTIVA)
        then { s with conexiones := s.conexiones ++ [nuevaConexion r nuevoId] }
        else s) ∧
    crearConexionConFallo s r nuevoId false false = crearConexion s r nuevoId := by
  unfold crearConexion crearConexionConFallo
  cases hp : findPuerto s r.puerto_id with
  | none =>
    simp only [hp, Option.map_none']
    refine ⟨Or.inr (by trivial), by trivial, ?_, by trivial⟩
    rw [if_neg]
    rintro ⟨h, -⟩
    exact Option.noConfusion h
  | some puerto =>
    simp only [hp, Option.map_some']
    by_cases he : puerto.estado ≠ .LIBRE
    · simp only [if_pos he]
      refine ⟨Or.inr (by trivial), by trivial, ?_, by trivial⟩
      rw [if_neg]
      rintro ⟨h, -⟩
      exact he (Option.some.inj h)
    · simp only [if_neg he]
      have hlibre : puerto.estado = .LIBRE := not_not.mp he
      cases hc : findCliente s r.cliente_id with
      | none =>
        simp only [hc]
        refine ⟨Or.inr (by trivial), by trivial, ?_, by trivial⟩
        rw [if_neg]
        rintro ⟨-, h, -⟩
        exact Bool.noConfusion h
      | some cliente =>
        simp only [hc]
        cases hpl : findPlan s r.plan_id with
        | none =>
          simp only [hpl]
          refine ⟨Or.inr (by trivial), by trivial, ?_, by trivial⟩
          rw [if_neg]
          rintro ⟨-, -, h, -⟩
          exact Bool.noConfusion h
        | some plan =>
          simp only [hpl]
          by_cases hex : ∃ c ∈ s.conexiones, c.puerto_id = r.puerto_id ∧ c.estado = .ACTIVA
          · simp only [if_pos hex]
            refine ⟨Or.inr (by trivial), by trivial, ?_, by trivial⟩
            rw [if_neg]
            rintro ⟨-, -, -, h⟩
            exact h hex
          · simp only [if_neg hex]
            refine ⟨Or.inl (by trivial), by trivial, ?_, by trivial⟩
            rw [if_neg (show ¬ (false = true) from fun h => Bool.noConfusion h),
              if_pos (trivial : True), if_pos]
            exact ⟨by rw [hlibre], by trivial, by trivial, hex⟩

/-- C3 counterexample: at `tiendaC3` every precondition of the claim
holds, yet when the port write fails after the connection write the
call answers an internal error and leaves the store with the new
connection row present and the port still `LIBRE` — the tables are not
"exactly as they were before the call". -/
theorem c3_counterexample :
    (crearConexionConFallo tiendaC3 solicitudC3 1 false true).1 = .error .interno ∧
    (crearConexionConFallo tiendaC3 solicitudC3 1 false true).2 ≠ tiendaC3 ∧
    nuevaConexion solicitudC3 1 ∈ (crearConexionConFallo tiendaC3 solicitudC3 1 false true).2.conexiones ∧
    findPuerto (crearConexionConFallo tiendaC3 solicitudC3 1 false true).2 1
      = some { id := 1, nap_id := 1, estado := .LIBRE, nota := none } := by decide

/-- C4 (amended): the exact error behaviour of `crearConexion`.  As
stated the claim is false on two counts (see the counterexample): the
defensive re-check only covers `ACTIVA` connections — a `SUSPENDIDA`
connection on the port does not block allocation — and the operation
additionally requires the client to exist (`cliente_id` is looked up,
not upserted), failing with a client-not-found error otherwise.
Amended characterization, in the check order of the source:
port-not-found exactly when the port is absent; port-unavailable
exactly when the port exists in a state other than `LIBRE`;
client-not-found exactly when the port is free but the client is
absent; plan-not-found exactly when port and client pass but the plan
is absent; duplicate-connection exactly when everything else passes but
an `ACTIVA` connection already references the port; on success the new
`ACTIVA` connection is appended and the port set to `OCUPADO`, and any
error leaves the store unchanged. -/
theorem c4_errores_crear (s : Store) (r : CrearReq) (nuevoId : Nat) :
    ((crearConexion s r nuevoId).1 = .error .puertoNoEncontrado ↔
      findPuerto s r.puerto_id = none) ∧
    ((crearConexion s r nuevoId).1 = .error .puertoNoDisponible ↔
      ((findPuerto s r.puerto_id).isSome ∧
        ¬ (findPuerto s r.puerto_id).map Puerto.estado = some .LIBRE)) ∧
    ((crearConexion s r nuevoId).1 = .error .clienteNoEncontrado ↔
      ((findPuerto s r.puerto_id).map Puerto.estado = some .LIBRE ∧
        findCliente s r.cliente_id = none)) ∧
    ((crearConexion s r nuevoId).1 = .error .planNoEncontrado ↔
      ((findPuerto s r.puerto_id).map Puerto.estado = some .LIBRE ∧
        (findCliente s r.cliente_id).isSome ∧ findPlan s r.plan_id = none)) ∧
    ((crearConexion s r nuevoId).1 = .error .conexionYaActiva ↔
      ((findPuerto s r.puerto_id).map Puerto.estado = some .LIBRE ∧
        (findCliente s r.cliente_id).isSome ∧ (findPlan s r.plan_id).isSome ∧
        (∃ c ∈ s.conexiones, c.puerto_id = r.puerto_id ∧ c.estado = .ACTIVA))) ∧
    ((crearConexion s r nuevoId).1 = .ok (nuevaConexion r nuevoId) ↔
      ((findPuerto s r.puerto_id).map Puerto.estado = some .LIBRE ∧
        (findCliente s r.cliente_id).isSome ∧ (findPlan s r.plan_id).isSome ∧
        ¬ (∃ c ∈ s.conexiones, c.puerto_id = r.puerto_id ∧ c.estado = .ACTIVA))) ∧
    ((crearConexion s r nuevoId).2 =
      if (findPuerto s r.puerto_id).map Puerto.estado = some .LIBRE ∧
          (findCliente s r.cliente_id).isSome ∧ (findPlan s r.plan_id).isSome ∧
          ¬ (∃ c ∈ s.conexiones, c.puerto_id = r.puerto_id ∧ c.estado = .ACTIVA)
        then setPuertoEstado { s with conexiones := s.conexiones ++ [nuevaConexion r nuevoId] }
              r.puerto_id .OCUPADO
        else s) := by
  unfold crearConexion
  cases hp : findPuerto s r.puerto_id with
  | none => simp [hp]
  | some puerto =>
    by_cases he : puerto.estado ≠ .LIBRE
    · simp only [hp, Option.map_some', if_pos he]
      simp [he]
    · have hlibre : puerto.estado = .LIBRE := not_not.mp he
      simp only [hp, Option.map_some', if_neg he]
      cases hc : findCliente s r.cliente_id with
      | none => simp [hc, hlibre]
      | some cliente =>
        cases hpl : findPlan s r.plan_id with
        | none => simp [hpl, hc, hlibre]
        | some plan =>
          by_cases hex : ∃ c ∈ s.conexiones, c.puerto_id = r.puerto_id ∧ c.estado = .ACTIVA
          · simp only [hc, hpl, if_pos hex]
            simp [hex, hlibre]
          · simp only [hc, hpl, if_neg hex]
            simp [hex, hlibre]

/-- C4 counterexample: in `tiendaC4` the port exists and is `LIBRE`, no
connection (live or otherwise) references it and the plan exists, so by
the claim the allocation should succeed — but the call fails (with the
client-not-found error, a case the claim does not admit) and creates
nothing. -/
theorem c4_counterexample :
    (findPuerto tiendaC4 1 = some { id := 1, nap_id := 1, estado := .LIBRE, nota := none }) ∧
    (¬ ∃ c ∈ tiendaC4.conexiones, c.puerto_id = 1 ∧ conexionViva c) ∧
    (findPlan tiendaC4 1).isSome ∧
    (crearConexion tiendaC4 solicitudC4 1).1 = .error .clienteNoEncontrado ∧
    ¬ (crearConexion tiendaC4 solicitudC4 1).1.esOk ∧
    (crearConexion tiendaC4 solicitudC4 1).2 = tiendaC4 := by decide

theorem setPuerto_estado_en (s : Store) (pid : Nat) (e : EstadoPuerto) :
    ∀ p ∈ (setPuertoEstado s pid e).puertos, p.id = pid → p.estado = e := by
  intro p hp hpid
  rw [show (setPuertoEstado s pid e).puertos
      = s.puertos.map (fun q => if q.id = pid then { q with estado := e } else q) from rfl] at hp
  obtain ⟨q, hq, rfl⟩ := List.mem_map.mp hp
  by_cases h : q.id = pid
  · rw [if_pos h]
  · rw [if_neg h] at hpid
    exact absurd hpid h

theorem reemplazo_conexion_en (s : Store) (c' : Conexion) :
    ∀ x ∈ (reemplazarConexion s c').conexiones, x.id = c'.id → x = c' := by
  intro x hx hxid
  rw [show (reemplazarConexion s c').conexiones
      = s.conexiones.map (fun y => if y.id = c'.id then c' else y) from rfl] at hx
  obtain ⟨y, hy, rfl⟩ := List.mem_map.mp hx
  by_cases h : y.id = c'.id
  · rw [if_pos h]
  · rw [if_neg h] at hxid
    exact absurd hxid h

theorem finalizar_tras (s : Store) (cid ahora : Nat) {c : Conexion}
    (hfind : findConexion s cid = some c) (hnofin : ¬ c.estado = .FINALIZADA) :
    ((finalizarConexion s cid ahora).2.conexiones
        = (reemplazarConexion s
            { c with estado := .FINALIZADA, fecha_fin := some ahora }).conexiones)
    ∧ ((findPuerto s c.puerto_id = none ∧ (finalizarConexion s cid ahora).2.puertos = s.puertos)
       ∨ (finalizarConexion s cid ahora).2.puertos
          = (setPuertoEstado
              (reemplazarConexion s { c with estado := .FINALIZADA, fecha_fin := some ahora })
              c.puerto_id .LIBRE).puertos) := by
  unfold finalizarConexion
  simp only [hfind]
  rw [if_neg hnofin]
  simp only [findPuerto_reemplazo]
  cases hfp : findPuerto s c.puerto_id with
  | none =>
    simp only [hfp]
    exact ⟨by trivial, Or.inl ⟨by trivial, by trivial⟩⟩
  | some puerto =>
    simp only [hfp, findNAP_set, findNAP_reemplazo]
    cases hn : findNAP s puerto.nap_id with
    | none =>
      simp only [hn]
      exact ⟨by trivial, Or.inr (by trivial)⟩
    | some nap =>
      simp only [hn]
      by_cases hs : nap.estado = .SATURADO
      · rw [if_pos hs]
        by_cases hpct : pctLt
            (contarOcupadosNAP
              (setPuertoEstado
                (reemplazarConexion s { c with estado := .FINALIZADA, fecha_fin := some ahora })
                c.puerto_id .LIBRE)
              nap.id)
            nap.total_puertos 100
        · rw [if_pos hpct]
          exact ⟨by trivial, Or.inr (by trivial)⟩
        · rw [if_neg hpct]
          exact ⟨by trivial, Or.inr (by trivial)⟩
      · rw [if_neg hs]
        exact ⟨by trivial, Or.inr (by trivial)⟩

/-- C5 (amended): effects of a transition on a non-finalized
connection.  Through `actualizarConexion`, a request for `ACTIVA` or
`SUSPENDIDA` leaves a currently `OCUPADO` port `OCUPADO`, and a request
for `FINALIZADA` sets the port to `LIBRE`; through the dedicated
`finalizarConexion`, the port is set to `LIBRE` and the connection gets
state `FINALIZADA` with its end date always stamped with the current
time.  Contrary to the claim, `actualizarConexion` never stamps the end
date itself: the end date changes only when the request supplies one,
so finalizing through the state-update endpoint with no `fecha_fin` in
the body leaves an absent end date absent (see the counterexample). -/
theorem c5_transiciones (s : Store) (cid ahora : Nat) (r : ActualizarReq) (c : Conexion)
    (hfind : findConexion s cid = some c) (hnofin : ¬ c.estado = .FINALIZADA)
    (hplan : ∀ pid, r.plan_id = some pid → (findPlan s pid).isSome) :
    ((r.estado = some .ACTIVA ∨ r.estado = some .SUSPENDIDA) →
      (∀ p ∈ s.puertos, p.id = c.puerto_id → p.estado = .OCUPADO) →
      ∀ p ∈ (actualizarConexion s cid r).2.puertos, p.id = c.puerto_id → p.estado = .OCUPADO) ∧
    (r.estado = some .FINALIZADA →
      ∀ p ∈ (actualizarConexion s cid r).2.puertos, p.id = c.puerto_id → p.estado = .LIBRE) ∧
    (∀ p ∈ (finalizarConexion s cid ahora).2.puertos, p.id = c.puerto_id → p.estado = .LIBRE) ∧
    (∀ x ∈ (finalizarConexion s cid ahora).2.conexiones, x.id = cid →
      x.estado = .FINALIZADA ∧ x.fecha_fin = some ahora) := by
  obtain ⟨hmem, hcid⟩ := findConexion_eq_some hfind
  have hred : actualizarConexion s cid r = aplicarActualizacion s c r := by
    unfold actualizarConexion
    simp only [hfind]
    cases hrp : r.plan_id with
    | none => simp only [hrp]
    | some pid =>
      cases hfp : findPlan s pid with
      | none =>
        have h2 := hplan pid hrp
        rw [hfp] at h2
        exact Bool.noConfusion h2
      | some q => simp only [hrp, hfp]
  have htras := finalizar_tras s cid ahora hfind hnofin
  refine ⟨?_, ?_, ?_, ?_⟩
  · intro hAS hOc
    rw [hred]
    unfold aplicarActualizacion
    rcases hAS with h | h <;> simp only [h]
    · by_cases hsame : EstadoConexion.ACTIVA = c.estado
      · rw [if_pos hsame]
        intro p hp hpid
        exact hOc p hp hpid
      · rw [if_neg hsame]
        simp only [findPuerto_reemplazo]
        cases hfp : findPuerto s c.puerto_id with
        | none =>
          simp only [hfp]
          intro p hp hpid
          exact absurd hpid (findPuerto_eq_none hfp p hp)
        | some q =>
          simp only [hfp]
          exact setPuerto_estado_en _ _ _
    · by_cases hsame : EstadoConexion.SUSPENDIDA = c.estado
      · rw [if_pos hsame]
        intro p hp hpid
        exact hOc p hp hpid
      · rw [if_neg hsame]
        simp only [findPuerto_reemplazo]
        cases hfp : findPuerto s c.puerto_id with
        | none =>
          simp only [hfp]
          intro p hp hpid
          exact absurd hpid (findPuerto_eq_none hfp p hp)
        | some q =>
          simp only [hfp]
          exact setPuerto_estado_en _ _ _
  · intro h
    rw [hred]
    unfold aplicarActualizacion
    simp only [h]
    rw [if_neg fun hh => hnofin hh.symm]
    simp only [findPuerto_reemplazo]
    cases hfp : findPuerto s c.puerto_id with
    | none =>
      simp only [hfp]
      intro p hp hpid
      exact absurd hpid (findPuerto_eq_none hfp p hp)
    | some q =>
      simp only [hfp]
      exact setPuerto_estado_en _ _ _
  · rcases htras.2 with ⟨hnone, heq⟩ | heq
    · rw [heq]
      intro p hp hpid
      exact absurd hpid (findPuerto_eq_none hnone p hp)
    · rw [heq]
      exact setPuerto_estado_en _ _ _
  · rw [htras.1]
    intro x hx hxid
    have hx2 := reemplazo_conexion_en s
      { c with estado := .FINALIZADA, fecha_fin := some ahora } x hx (hxid.trans hcid.symm)
    rw [hx2]
    exact ⟨rfl, rfl⟩

/-- Witness for `c5_transiciones`: at `tiendaC5` (one `ACTIVA`
connection on the occupied port 1), a suspension request keeps port 1
`OCUPADO`, a finalization request through the state-update endpoint
frees it, and the dedicated finalization endpoint frees it and stamps
the end date with the given time. -/
theorem c5_transiciones_witness :
    (findConexion tiendaC5 1 ≠ none ∧
      (∀ p ∈ tiendaC5.puertos, p.id = 1 → p.estado = .OCUPADO)) ∧
    (∀ p ∈ (actualizarConexion tiendaC5 1 solicitudSuspender).2.puertos,
      p.id = 1 → p.estado = .OCUPADO) ∧
    (∀ p ∈ (actualizarConexion tiendaC5 1 solicitudFinalizar).2.puertos,
      p.id = 1 → p.estado = .LIBRE) ∧
    (∀ p ∈ (finalizarConexion tiendaC5 1 77).2.puertos, p.id = 1 → p.estado = .LIBRE) ∧
    (∀ x ∈ (finalizarConexion tiendaC5 1 77).2.conexiones, x.id = 1 →
      x.estado = .FINALIZADA ∧ x.fecha_fin = some 77) := by
  refine ⟨⟨by decide, by decide⟩, ?_, ?_, ?_, ?_⟩
  · exact (c5_transiciones tiendaC5 1 77 solicitudSuspender conexionC5 (by decide) (by decide)
      (by intro pid h; exact Option.noConfusion h)).1 (Or.inr rfl) (by decide)
  · exact (c5_transiciones tiendaC5 1 77 solicitudFinalizar conexionC5 (by decide) (by decide)
      (by intro pid h; exact Option.noConfusion h)).2.1 rfl
  · exact (c5_transiciones tiendaC5 1 77 solicitudFinalizar conexionC5 (by decide) (by decide)
      (by intro pid h; exact Option.noConfusion h)).2.2.1
  · exact (c5_transiciones tiendaC5 1 77 solicitudFinalizar conexionC5 (by decide) (by decide)
      (by intro pid h; exact Option.noConfusion h)).2.2.2

/-- C5 counterexample: finalizing the `ACTIVA` connection of `tiendaC5`
through the state-update endpoint with no end date in the request
succeeds and frees the port, but the connection's absent end date stays
absent — it is not stamped with the current time as the claim
states. -/
theorem c5_counterexample :
    (actualizarConexion tiendaC5 1 solicitudFinalizar).1 = .ok () ∧
    ((actualizarConexion tiendaC5 1 solicitudFinalizar).2.puertos.map Puerto.estado)
      = [.LIBRE] ∧
    ((actualizarConexion tiendaC5 1 solicitudFinalizar).2.conexiones.map Conexion.estado)
      = [.FINALIZADA] ∧
    ((actualizarConexion tiendaC5 1 solicitudFinalizar).2.conexiones.map Conexion.fecha_fin)
      = [none] := by decide

theorem contar_reemplazo (s : Store) (c : Conexion) (nid : Nat) :
    contarOcupadosNAP (reemplazarConexion s c) nid = contarOcupadosNAP s nid := rfl

theorem filtro_liberar (pnap : Nat) (l : List Puerto) :
    ∀ p : Puerto, (l.map Puerto.id).Nodup → p ∈ l →
      p.estado = .OCUPADO → p.nap_id = pnap →
      ((l.map fun x => if x.id = p.id then { x with estado := .LIBRE } else x).filter
          fun x => decide (x.nap_id = pnap ∧ x.estado = .OCUPADO)).length + 1
        = (l.filter fun x => decide (x.nap_id = pnap ∧ x.estado = .OCUPADO)).length := by
  induction l with
  | nil =>
    intro p _ hp
    exact absurd hp (List.not_mem_nil p)
  | cons a t ih =>
    intro p hnd hp hocc hnap
    rw [List.map_cons] at hnd
    have hnd' := List.nodup_cons.mp hnd
    rcases List.mem_cons.mp hp with rfl | hpt
    · rw [List.map_cons, if_pos rfl, List.filter_cons, List.filter_cons]
      have hq1 : ¬ ((decide (({ p with estado := EstadoPuerto.LIBRE } : Puerto).nap_id = pnap ∧
          ({ p with estado := EstadoPuerto.LIBRE } : Puerto).estado = .OCUPADO)) = true) := by
        simp
      have hq2 : (decide (p.nap_id = pnap ∧ p.estado = .OCUPADO)) = true := by
        simp [hnap, hocc]
      rw [if_neg hq1, if_pos hq2]
      have hmapid : (t.map fun x => if x.id = p.id then { x with estado := EstadoPuerto.LIBRE } else x)
          = t.map fun x => x := by
        refine List.map_congr_left ?_
        intro x hx
        refine if_neg ?_
        intro he
        exact hnd'.1 (he ▸ List.mem_map_of_mem Puerto.id hx)
      rw [hmapid, List.map_id']
      simp
    · have hane : ¬ a.id = p.id := by
        intro he
        exact hnd'.1 (he ▸ List.mem_map_of_mem Puerto.id hpt)
      rw [List.map_cons, if_neg hane, List.filter_cons, List.filter_cons]
      have hrec := ih p hnd'.2 hpt hocc hnap
      by_cases hqa : (decide (a.nap_id = pnap ∧ a.estado = .OCUPADO)) = true
      · rw [if_pos hqa, if_pos hqa]
        simp only [List.length_cons]
        omega
      · rw [if_neg hqa, if_neg hqa]
        exact hrec

theorem contar_tras_liberar {s : Store} {p : Puerto} (hnd : puertosIdUnicos s)
    (hmem : p ∈ s.puertos) (hocc : p.estado = .OCUPADO) {nid : Nat} (hnap : p.nap_id = nid) :
    contarOcupadosNAP (setPuertoEstado s p.id .LIBRE) nid + 1 = contarOcupadosNAP s nid :=
  filtro_liberar nid s.puertos p hnd hmem hocc hnap

theorem setNAP_estado_en (s : Store) (nid : Nat) (e : EstadoNAP) :
    ∀ n ∈ (setNAPEstado s nid e).naps, n.id = nid → n.estado = e := by
  intro n hn hnid
  rw [show (setNAPEstado s nid e).naps
      = s.naps.map (fun q => if q.id = nid then { q with estado := e } else q) from rfl] at hn
  obtain ⟨q, hq, rfl⟩ := List.mem_map.mp hn
  by_cases h : q.id = nid
  · rw [if_pos h]
  · rw [if_neg h] at hnid
    exact absurd hnid h

theorem aplicar_naps (s : Store) (conexion : Conexion) (r : ActualizarReq) :
    (aplicarActualizacion s conexion r).2.naps = s.naps := by
  unfold aplicarActualizacion
  cases hre : r.estado with
  | none => simp only [hre]; rfl
  | some e =>
    simp only [hre]
    by_cases hee : e = conexion.estado
    · rw [if_pos hee]
      rfl
    · rw [if_neg hee]
      by_cases hfin : e = .FINALIZADA
      · rw [if_pos hfin]
        simp only [findPuerto_reemplazo]
        cases hfp : findPuerto s conexion.puerto_id <;> simp only [hfp] <;> rfl
      · rw [if_neg hfin]
        simp only [findPuerto_reemplazo]
        cases hfp : findPuerto s conexion.puerto_id <;> simp only [hfp] <;> rfl

theorem actualizar_naps (s : Store) (cid : Nat) (r : ActualizarReq) :
    (actualizarConexion s cid r).2.naps = s.naps := by
  unfold actualizarConexion
  cases hf : findConexion s cid with
  | none => simp only [hf]
  | some conexion =>
    simp only [hf]
    cases hrp : r.plan_id with
    | none => simp only [hrp]; exact aplicar_naps s conexion r
    | some pid =>
      simp only [hrp]
      cases hfpl : findPlan s pid with
      | none => simp only [hfpl]
      | some q => simp only [hfpl]; exact aplicar_naps s conexion r

/-- C6 (amended): the eager saturation clear lives only in the
dedicated finalization endpoint.  When `finalizarConexion` finalizes a
connection whose occupied port belongs to a `SATURADO` NAP with a
consistent occupancy count, the NAP's occupancy is recomputed in the
same call and its state set back to `ACTIVO`.  Contrary to the claim,
finalizing a connection through the state-update endpoint
`actualizarConexion` never touches the NAP table at all (second
conjunct, and the counterexample). -/
theorem c6_saturacion (s : Store) (cid ahora : Nat) (r : ActualizarReq) (c : Conexion)
    (p : Puerto) (nap : NAP)
    (hfind : findConexion s cid = some c) (hnofin : ¬ c.estado = .FINALIZADA)
    (hfp : findPuerto s c.puerto_id = some p) (hocc : p.estado = .OCUPADO)
    (hn : findNAP s p.nap_id = some nap) (hsat : nap.estado = .SATURADO)
    (hnd : puertosIdUnicos s)
    (hmax : contarOcupadosNAP s nap.id ≤ nap.total_puertos) (htot : 0 < nap.total_puertos) :
    (∀ n ∈ (finalizarConexion s cid ahora).2.naps, n.id = nap.id → n.estado = .ACTIVO) ∧
    (actualizarConexion s cid r).2.naps = s.naps := by
  refine ⟨?_, actualizar_naps s cid r⟩
  have hpid : p.id = c.puerto_id := (findPuerto_eq_some hfp).2
  have hpmem : p ∈ s.puertos := (findPuerto_eq_some hfp).1
  have hnapid : nap.id = p.nap_id := (findNAP_eq_some hn).2
  unfold finalizarConexion
  simp only [hfind]
  rw [if_neg hnofin]
  simp only [findPuerto_reemplazo, hfp, findNAP_set, findNAP_reemplazo, hn]
  rw [if_pos hsat]
  have hcount : contarOcupadosNAP
      (setPuertoEstado (reemplazarConexion s { c with estado := .FINALIZADA, fecha_fin := some ahora })
        c.puerto_id .LIBRE) nap.id + 1
      = contarOcupadosNAP s nap.id := by
    have h2 := contar_tras_liberar
      (s := reemplazarConexion s { c with estado := .FINALIZADA, fecha_fin := some ahora })
      (p := p) hnd hpmem hocc hnapid.symm
    rw [hpid] at h2
    rw [h2, contar_reemplazo]
  have hpct : pctLt
      (contarOcupadosNAP
        (setPuertoEstado (reemplazarConexion s { c with estado := .FINALIZADA, fecha_fin := some ahora })
          c.puerto_id .LIBRE) nap.id)
      nap.total_puertos 100 := by
    refine ⟨htot, ?_⟩
    have hlt : contarOcupadosNAP
        (setPuertoEstado (reemplazarConexion s { c with estado := .FINALIZADA, fecha_fin := some ahora })
          c.puerto_id .LIBRE) nap.id < contarOcupadosNAP s nap.id := by
      rw [← hcount]
      exact Nat.lt_succ_self _
    have hlt2 := Nat.lt_of_lt_of_le hlt hmax
    exact mul_lt_mul_of_pos_left hlt2 (by norm_num)
  rw [if_pos hpct]
  exact setNAP_estado_en _ _ _

/-- Witness for `c6_saturacion` at `tiendaC6`: finalizing connection 1
through the dedicated endpoint flips the saturated NAP back to
`ACTIVO`, while suspending through the state-update endpoint leaves the
NAP table untouched. -/
theorem c6_saturacion_witness :
    (findConexion tiendaC6 1 = some ⟨1, 1, 1, 1, 10, none, .ACTIVA, 1⟩ ∧
      findPuerto tiendaC6 1 = some ⟨1, 1, .OCUPADO, none⟩ ∧
      findNAP tiendaC6 1 = some ⟨1, .SATURADO, 2⟩ ∧
      contarOcupadosNAP tiendaC6 1 ≤ 2) ∧
    (∀ n ∈ (finalizarConexion tiendaC6 1 50).2.naps, n.id = 1 → n.estado = .ACTIVO) ∧
    (actualizarConexion tiendaC6 1 solicitudSuspender).2.naps = tiendaC6.naps := by
  refine ⟨⟨by decide, by decide, by decide, by decide⟩, ?_, ?_⟩
  · exact (c6_saturacion tiendaC6 1 50 solicitudSuspender ⟨1, 1, 1, 1, 10, none, .ACTIVA, 1⟩
      ⟨1, 1, .OCUPADO, none⟩ ⟨1, .SATURADO, 2⟩ (by decide) (by decide) (by decide) (by decide)
      (by decide) (by decide) (by decide) (by decide) (by decide)).1
  · exact (c6_saturacion tiendaC6 1 50 solicitudSuspender ⟨1, 1, 1, 1, 10, none, .ACTIVA, 1⟩
      ⟨1, 1, .OCUPADO, none⟩ ⟨1, .SATURADO, 2⟩ (by decide) (by decide) (by decide) (by decide)
      (by decide) (by decide) (by decide) (by decide) (by decide)).2

/-- C6 counterexample: finalizing connection 1 of `tiendaC6` through
the state-update endpoint succeeds, frees port 1 and brings the NAP's
occupancy below 100%, yet the NAP stays `SATURADO` — no recomputation
happens in that call, contrary to the claim that any transition to
`FINALIZADA` triggers the eager clear. -/
theorem c6_counterexample :
    (actualizarConexion tiendaC6 1 solicitudFinalizar).1 = .ok () ∧
    ((actualizarConexion tiendaC6 1 solicitudFinalizar).2.puertos.map Puerto.estado)
      = [.LIBRE, .OCUPADO] ∧
    pctLt (contarOcupadosNAP (actualizarConexion tiendaC6 1 solicitudFinalizar).2 1) 2 100 ∧
    ((actualizarConexion tiendaC6 1 solicitudFinalizar).2.naps.map NAP.estado)
      = [.SATURADO] := by decide

/-- C7 (amended): behaviour of the capacity scan `obtenerAlertas`.  The
scan only examines NAPs in state `ACTIVO`: among those it sets state
`SATURADO` exactly when the occupancy percentage reaches 100 (or more),
and reports — without changing state — a near-saturation alert exactly
when the percentage lies in `[80, 100)`; every NAP not in state
`ACTIVO` keeps its state.  Contrary to the claim's "for every NAP", a
NAP outside state `ACTIVO` at 100% occupancy is neither saturated nor
reported (see the counterexample). -/
theorem c7_escaneo (s : Store) (hnd : (s.naps.map NAP.id).Nodup) :
    (∀ n ∈ s.naps, ∃ m ∈ (obtenerAlertas s).2.naps, m.id = n.id ∧
      m.estado = (if n.estado = .ACTIVO ∧ pctGe (contarOcupadosNAP s n.id) n.total_puertos 100
        then .SATURADO else n.estado)) ∧
    (∀ n ∈ s.naps,
      (({ tipo := .NAP_PROXIMO_SATURACION, nap_id := n.id } : Alerta) ∈ (obtenerAlertas s).1
        ↔ (n.estado = .ACTIVO ∧ pctGe (contarOcupadosNAP s n.id) n.total_puertos 80 ∧
            pctLt (contarOcupadosNAP s n.id) n.total_puertos 100))) := by
  constructor
  · intro n hn
    refine ⟨if n.estado = .ACTIVO ∧ pctGe (contarOcupadosNAP s n.id) n.total_puertos 100
        then { n with estado := .SATURADO } else n, ?_, ?_, ?_⟩
    · exact List.mem_map_of_mem _ hn
    · by_cases h : n.estado = .ACTIVO ∧ pctGe (contarOcupadosNAP s n.id) n.total_puertos 100
      · rw [if_pos h]
      · rw [if_neg h]
    · by_cases h : n.estado = .ACTIVO ∧ pctGe (contarOcupadosNAP s n.id) n.total_puertos 100
      · rw [if_pos h, if_pos h]
      · rw [if_neg h, if_neg h]
  · intro n hn
    unfold obtenerAlertas
    simp only [List.mem_append, List.mem_map, List.mem_filter, decide_eq_true_eq,
      Alerta.mk.injEq]
    constructor
    · intro h
      rcases h with (⟨m, hm, htipo, hid⟩ | ⟨m, hm, htipo, hid⟩) | ⟨m, hm, htipo, hid⟩
      · exact absurd htipo (by intro hh; exact TipoAlerta.noConfusion hh)
      · exact absurd htipo (by intro hh; exact TipoAlerta.noConfusion hh)
      · obtain ⟨⟨hmem, hact⟩, hcond⟩ := hm
        have hmn : m = n := by
          refine List.inj_on_of_nodup_map hnd hmem hn ?_
          exact hid
        rw [hmn] at hact hcond
        exact ⟨hact, hcond⟩
    · intro ⟨hact, hcond⟩
      refine Or.inr ⟨n, ⟨⟨hn, hact⟩, hcond⟩, by trivial, by trivial⟩

/-- Witness for `c7_escaneo` at `tiendaEscaneo`: the scan saturates the
fully occupied `ACTIVO` NAP 1 and reports the 80%-occupied NAP 2 as
near saturation. -/
theorem c7_escaneo_witness :
    (tiendaEscaneo.naps.map NAP.id).Nodup ∧
    (∃ m ∈ (obtenerAlertas tiendaEscaneo).2.naps, m.id = 1 ∧ m.estado = .SATURADO) ∧
    (({ tipo := .NAP_PROXIMO_SATURACION, nap_id := 2 } : Alerta) ∈ (obtenerAlertas tiendaEscaneo).1) := by
  refine ⟨by decide, ?_, ?_⟩
  · obtain ⟨m, hm, hid, hest⟩ :=
      (c7_escaneo tiendaEscaneo (by decide)).1 ⟨1, .ACTIVO, 1⟩ (by decide)
    refine ⟨m, hm, hid, ?_⟩
    rw [hest]
    decide
  · exact ((c7_escaneo tiendaEscaneo (by decide)).2 ⟨2, .ACTIVO, 5⟩ (by decide)).mpr
      ⟨by decide, by decide, by decide⟩

/-- C7 counterexample: the single NAP of `tiendaC7` is in state
`MANTENIMIENTO` with all of its ports occupied — its occupancy
percentage is exactly 100 — yet the scan neither sets it `SATURADO` nor
produces any alert for it, against the claim's "for every NAP, a scan
sets the NAP's state to SATURATED exactly when its occupancy percentage
equals 100". -/
theorem c7_counterexample :
    pctGe (contarOcupadosNAP tiendaC7 1) 1 100 ∧
    contarOcupadosNAP tiendaC7 1 = 1 ∧
    ((obtenerAlertas tiendaC7).2.naps.map NAP.estado) = [.MANTENIMIENTO] ∧
    ¬ (∃ a ∈ (obtenerAlertas tiendaC7).1, a.tipo = .NAP_SATURADO ∨
        a.tipo = .NAP_PROXIMO_SATURACION) := by decide

/-- C8: audit diff correctness of the `afterUpdate` hook installed by
`configurarAuditoriaParaModelo`.  For every audited UPDATE written with
an actor, the record's before and after maps are keyed by exactly the
columns whose value changed — no unchanged column appears, the after
values are the current values and the before values the previous ones —
and when no column changed no record is written at all. -/
theorem c8_auditoria_diff (tabla : String) (rid : Nat) (inst : List CampoInstancia)
    (userId : Option Nat) (hnd : (inst.map CampoInstancia.nombre).Nodup) :
    (∀ reg, hookAfterUpdate tabla rid inst userId = some reg →
      ∃ antes nuevos, reg.datos_anteriores = some antes ∧ reg.datos_nuevos = some nuevos ∧
        antes.map Prod.fst = nuevos.map Prod.fst ∧
        (∀ f ∈ inst, (f.nombre ∈ nuevos.map Prod.fst ↔ ¬ f.valorPrevio = f.valorActual)) ∧
        (∀ par ∈ nuevos, ∃ f ∈ inst, f.nombre = par.1 ∧ par.2 = f.valorActual ∧
          ¬ f.valorPrevio = f.valorActual) ∧
        (∀ par ∈ antes, ∃ f ∈ inst, f.nombre = par.1 ∧ par.2 = f.valorPrevio ∧
          ¬ f.valorPrevio = f.valorActual)) ∧
    ((∀ f ∈ inst, f.valorPrevio = f.valorActual) →
      hookAfterUpdate tabla rid inst userId = none) := by
  unfold hookAfterUpdate registrarAuditoria camposCambiados
  cases userId with
  | none =>
    exact ⟨fun reg hreg => Option.noConfusion hreg, fun _ => rfl⟩
  | some uid =>
    constructor
    · intro reg hreg
      dsimp only at hreg
      by_cases hlen : 0 < ((inst.filter fun f => decide (¬ f.valorPrevio = f.valorActual)).map
          fun f => (f.nombre, f.valorActual)).length
      · rw [if_pos hlen] at hreg
        have hr := (Option.some.inj hreg).symm
        refine ⟨(inst.filter fun f => decide (¬ f.valorPrevio = f.valorActual)).map
            (fun f => (f.nombre, f.valorPrevio)),
          (inst.filter fun f => decide (¬ f.valorPrevio = f.valorActual)).map
            (fun f => (f.nombre, f.valorActual)), ?_, ?_, ?_, ?_, ?_, ?_⟩
        · rw [hr]
        · rw [hr]
        · rw [List.map_map, List.map_map]
          exact List.map_congr_left fun a _ => rfl
        · intro f hf
          rw [List.map_map]
          constructor
          · intro hmem
            obtain ⟨g, hg, hgn⟩ := List.mem_map.mp hmem
            have hg2 := List.mem_filter.mp hg
            have hgf : g = f :=
              List.inj_on_of_nodup_map hnd hg2.1 hf hgn
            rw [← hgf]
            exact of_decide_eq_true hg2.2
          · intro hch
            refine List.mem_map_of_mem _ (List.mem_filter.mpr ⟨hf, ?_⟩)
            exact decide_eq_true hch
        · intro par hpar
          obtain ⟨g, hg, hgp⟩ := List.mem_map.mp hpar
          have hg2 := List.mem_filter.mp hg
          exact ⟨g, hg2.1, by rw [← hgp], by rw [← hgp], of_decide_eq_true hg2.2⟩
        · intro par hpar
          obtain ⟨g, hg, hgp⟩ := List.mem_map.mp hpar
          have hg2 := List.mem_filter.mp hg
          exact ⟨g, hg2.1, by rw [← hgp], by rw [← hgp], of_decide_eq_true hg2.2⟩
      · rw [if_neg hlen] at hreg
        exact Option.noConfusion hreg
    · intro hsin
      have hfil : (inst.filter fun f => decide (¬ f.valorPrevio = f.valorActual)) = [] := by
        rw [List.filter_eq_nil_iff]
        intro f hf
        simp only [decide_eq_true_eq]
        intro hne
        exact hne (hsin f hf)
      rw [hfil]
      rfl

/-- Witness for `c8_auditoria_diff` at the concrete columns `camposC8`
(one changed column, two unchanged): the hook writes a record whose
before/after maps hold exactly the changed column. -/
theorem c8_auditoria_diff_witness :
    (camposC8.map CampoInstancia.nombre).Nodup ∧
    (∃ antes nuevos,
      (hookAfterUpdate "conexiones" 5 camposC8 (some 7)).map RegistroAuditoria.datos_anteriores
        = some (some antes) ∧
      (hookAfterUpdate "conexiones" 5 camposC8 (some 7)).map RegistroAuditoria.datos_nuevos
        = some (some nuevos) ∧
      antes.map Prod.fst = nuevos.map Prod.fst ∧
      (∀ f ∈ camposC8, (f.nombre ∈ nuevos.map Prod.fst ↔ ¬ f.valorPrevio = f.valorActual))) := by
  refine ⟨by decide, ?_⟩
  have hval : hookAfterUpdate "conexiones" 5 camposC8 (some 7)
      = some { tabla := "conexiones",
               registro_id := 5,
               accion := .UPDATE,
               datos_anteriores := some [("plan_id", 3)],
               datos_nuevos := some [("plan_id", 7)],
               cambiado_por := 7 } := by decide
  obtain ⟨antes, nuevos, h1, h2, h3, h4, -, -⟩ :=
    (c8_auditoria_diff "conexiones" 5 camposC8 (some 7) (by decide)).1 _ hval
  refine ⟨antes, nuevos, ?_, ?_, h3, h4⟩
  · rw [hval, Option.map_some', h1]
  · rw [hval, Option.map_some', h2]

/-- C9: evaluation of `eliminarCliente` at the failing input
`tiendaC9` (client 1 with one `ACTIVA` and one `SUSPENDIDA`
connection).  The call finalizes the `ACTIVA` connection, frees its
port and removes the client, but it leaves the `SUSPENDIDA` connection
untouched (its port stays `OCUPADO`), and — because the reported count
re-filters the already-mutated in-memory rows — it reports
`conexiones_finalizadas = 0` although it finalized one connection,
contradicting both the claim and the handler's own documented example
response. -/
theorem c9_eliminar_evaluacion :
    (eliminarCliente tiendaC9 1 50).1 = .ok 0 ∧
    ((eliminarCliente tiendaC9 1 50).2.conexiones.map Conexion.estado)
      = [.FINALIZADA, .SUSPENDIDA] ∧
    ((eliminarCliente tiendaC9 1 50).2.puertos.map Puerto.estado) = [.LIBRE, .OCUPADO] ∧
    (eliminarCliente tiendaC9 1 50).2.clientes = [] ∧
    ((tiendaC9.conexiones.filter fun c => decide (conexionViva c)).length = 2) := by decide

/-- C10 (amended): the guards of the direct port endpoint
`actualizarPuerto`.  With the port present, a request to set state
`LIBRE` is rejected with no mutation while an `ACTIVA` connection
references the port, and a request for `OCUPADO` is rejected with no
mutation while no `ACTIVA` connection does.  The claim's final clause
fails: the guards ignore `SUSPENDIDA` connections, so the operation
does not preserve the port-occupancy invariant — freeing a port whose
only live connection is `SUSPENDIDA` is accepted and breaks the
invariant (see the counterexample). -/
theorem c10_guardas_puerto (s : Store) (pid : Nat) (r : PuertoReq) (p : Puerto)
    (hfind : findPuerto s pid = some p) :
    ((r.estado = some .LIBRE ∧ (∃ c ∈ s.conexiones, c.puerto_id = pid ∧ c.estado = .ACTIVA)) →
      actualizarPuerto s pid r = (.error .puertoConConexionActiva, s)) ∧
    ((r.estado = some .OCUPADO ∧ ¬ (∃ c ∈ s.conexiones, c.puerto_id = pid ∧ c.estado = .ACTIVA)) →
      actualizarPuerto s pid r = (.error .puertoSinConexionActiva, s)) := by
  unfold actualizarPuerto
  simp only [hfind]
  constructor
  · intro h
    rw [if_pos h]
  · intro h
    have hne : ¬ (r.estado = some .LIBRE ∧
        (∃ c ∈ s.conexiones, c.puerto_id = pid ∧ c.estado = .ACTIVA)) := by
      rintro ⟨h1, -⟩
      rw [h.1] at h1
      exact EstadoPuerto.noConfusion (Option.some.inj h1)
    rw [if_neg hne, if_pos h]

/-- Witness for `c10_guardas_puerto`: freeing the occupied port of
`tiendaC5` (which carries an `ACTIVA` connection) is rejected, and
occupying the free port of `tiendaC2` (whose only connection is
`FINALIZADA`) is rejected, both without mutation. -/
theorem c10_guardas_puerto_witness :
    (findPuerto tiendaC5 1 = some ⟨1, 1, .OCUPADO, none⟩ ∧
      actualizarPuerto tiendaC5 1 solicitudLiberar = (.error .puertoConConexionActiva, tiendaC5)) ∧
    (findPuerto tiendaC2 1 = some ⟨1, 1, .LIBRE, none⟩ ∧
      actualizarPuerto tiendaC2 1 solicitudOcupar = (.error .puertoSinConexionActiva, tiendaC2)) :=
  ⟨⟨by decide,
      (c10_guardas_puerto tiendaC5 1 solicitudLiberar ⟨1, 1, .OCUPADO, none⟩ (by decide)).1
        ⟨rfl, by decide⟩⟩,
    ⟨by decide,
      (c10_guardas_puerto tiendaC2 1 solicitudOcupar ⟨1, 1, .LIBRE, none⟩ (by decide)).2
        ⟨rfl, by decide⟩⟩⟩

/-- C10 counterexample: `tiendaC10` satisfies the port-occupancy
invariant (port 1 `OCUPADO`, one `SUSPENDIDA` connection on it), yet
the direct port endpoint accepts freeing port 1 — the guard only looks
for `ACTIVA` connections — and the resulting store violates the
invariant, so the operation does not preserve it. -/
theorem c10_counterexample :
    invariantePuertos tiendaC10 ∧
    (actualizarPuerto tiendaC10 1 solicitudLiberar).1 = .ok () ∧
    ¬ invariantePuertos (actualizarPuerto tiendaC10 1 solicitudLiberar).2 := by decide

end ISPCore
